import Mathlib

/-!
Shallow embedding of the IRB profile importer (`src/irb_profile_importer.py`).

Pure Python functions are translated into Lean functions.  Calls into the
Python standard library or third-party libraries (`urllib.parse.urlparse`,
`urllib.parse.urljoin`, `ipaddress.ip_address`, `socket.getaddrinfo`,
`int(...)` string parsing, the `re` module, `html.parser`'s tokenizer,
byte/charset decoding, `pypdf`, and the network itself) are modelled as
fields of an explicit environment record `Env`: the repository's own control
flow around those calls is embedded faithfully, while the library calls
themselves are abstract functions supplied by the environment.  The network
is a pure function from a URL string to an outcome, and the fetcher is
instrumented to also return the list of URL strings for which an HTTP
request was actually issued.

Machine details that do not arise (no integer overflow is possible in the
source: Python integers are unbounded) are represented with `Nat`/`Int`;
the floating point confidence arithmetic is modelled over `ℚ`, which is
exact for the reachable value set (all quantities are multiples of 1/100
and the Python float computation rounds to the same two-decimal grid).
-/

/-! ### Constants (module-level constants of `irb_profile_importer.py`) -/

def USER_AGENT : String :=
  "IRB-Copilot-Importer/1.0 (+https://github.com/SoyMilkChicken/IRB-Ai-agent)"

def REQUEST_TIMEOUT_SECONDS : Nat := 7

def MAX_SOURCE_FETCH : Nat := 7

def MAX_LINKS_PER_PAGE : Nat := 120

def MAX_PDF_SOURCES_TO_PARSE : Nat := 2

def MAX_TEXT_CHARS : Nat := 240000

def MAX_SOURCE_RESPONSE_BYTES : Nat := 2500000

def MAX_REDIRECTS : Nat := 4

def ALLOWED_FETCH_SCHEMES : List String := ["http", "https"]

def ALLOWED_FETCH_PORTS : List Nat := [80, 443]

def BLOCKED_HOSTNAMES : List String :=
  ["localhost", "localhost.localdomain", "0.0.0.0", "127.0.0.1", "::1",
   "metadata.google.internal"]

def REDIRECT_HTTP_CODES : List Nat := [301, 302, 303, 307, 308]

def IRB_PAGE_HINTS : List String :=
  ["institutional review board", "human subjects", "hrpp", "research compliance", "irb"]

/-- The `SEARCH_QUERIES` templates; `template.format(name=org_name)` is the
application of the function to the organization name. -/
def SEARCH_QUERIES : List (String → String) :=
  [fun name => "\"" ++ name ++ "\" institutional review board",
   fun name => "\"" ++ name ++ "\" human subjects research",
   fun name => "\"" ++ name ++ "\" IRB application"]

def LIKELY_IRB_PATHS : List String :=
  ["/irb", "/research/irb", "/research-compliance/irb",
   "/research-compliance/human-subjects", "/human-subjects", "/hrpp",
   "/research/human-subjects"]

structure RequirementRule where
  id : String
  label : String
  patterns : List String
  weight : ℚ
  summary : String
  deriving DecidableEq

def REQUIREMENT_RULES : List RequirementRule :=
  [{ id := "review_categories", label := "Review Category Definitions",
     patterns := ["\\bexempt\\b", "\\bexpedited\\b", "\\bfull[\\s-]?board\\b"],
     weight := 0.12,
     summary := "Review categories (exempt/expedited/full board) are referenced." },
   { id := "training", label := "Human Subjects Training",
     patterns := ["\\bciti\\b", "human subjects training", "research ethics training"],
     weight := 0.11,
     summary := "Research training requirement language detected." },
   { id := "consent_template", label := "Consent Template/Process",
     patterns := ["\\bconsent\\b", "\\binformed consent\\b", "consent template"],
     weight := 0.1,
     summary := "Consent requirements/templates are referenced." },
   { id := "recruitment_materials", label := "Recruitment Materials",
     patterns := ["\\brecruitment\\b", "recruitment script", "participant invitation"],
     weight := 0.08,
     summary := "Recruitment material requirements are referenced." },
   { id := "survey_instrument", label := "Survey/Instrument Attachment",
     patterns := ["survey instrument", "questionnaire", "interview guide", "focus group guide"],
     weight := 0.09,
     summary := "Study instrument attachment requirements are referenced." },
   { id := "privacy_data_security", label := "Privacy/Data Security",
     patterns := ["data security", "confidentiality", "data retention", "encryption"],
     weight := 0.1,
     summary := "Data confidentiality/security requirements are referenced." },
   { id := "education_records", label := "Education Records / FERPA",
     patterns := ["\\bferpa\\b", "education records", "student records"],
     weight := 0.08,
     summary := "FERPA or education-record references are detected." },
   { id := "minors_assent", label := "Minors / Assent",
     patterns := ["\\bminor(s)?\\b", "parental permission", "\\bassent\\b"],
     weight := 0.08,
     summary := "Minor participant requirements are referenced." },
   { id := "hipaa_health_data", label := "HIPAA / Health Data",
     patterns := ["\\bhipaa\\b", "protected health information", "\\bphi\\b"],
     weight := 0.05,
     summary := "Health-data/HIPAA language is referenced." }]

/-! ### Small Python string helpers -/

/-- Python `s.lower()` (character-wise lowering; kernel-computable). -/
def pyLower (s : String) : String := String.mk (s.toList.map Char.toLower)

/-- Python `s.strip()`: whitespace stripped from both ends. -/
def pyStrip (s : String) : String :=
  String.mk ((s.toList.dropWhile Char.isWhitespace).reverse.dropWhile Char.isWhitespace).reverse

/-- Python `s.startswith(p)`. -/
def pyStartsWith (s p : String) : Bool := p.toList.isPrefixOf s.toList

/-- Python `s.endswith(p)`. -/
def pyEndsWith (s p : String) : Bool := p.toList.reverse.isPrefixOf s.toList.reverse

/-- Python `s[:n]` (by code points). -/
def pyTake (s : String) (n : Nat) : String := String.mk (s.toList.take n)

/-- Whether `needle` occurs as a contiguous sublist of `hay`. -/
def subOccurs (needle : List Char) : List Char → Bool
  | [] => needle.isEmpty
  | c :: rest => needle.isPrefixOf (c :: rest) || subOccurs needle rest

/-- Python `s.split(c)` on a single-character separator. -/
def splitOnChar (s : String) (c : Char) : List String :=
  (s.toList.foldr
    (fun ch acc =>
      match acc with
      | [] => [[ch]]
      | chunk :: rest => if ch = c then [] :: chunk :: rest else (ch :: chunk) :: rest)
    [[]]).map String.mk

/-- Python `s.split(c, 1)[0]`: the part before the first occurrence of `c`. -/
def beforeChar (s : String) (c : Char) : String :=
  String.mk (s.toList.takeWhile (fun d => d ≠ c))

/-- Python `s.replace(old, "")` for a single removed character. -/
def removeChar (s : String) (c : Char) : String :=
  String.mk (s.toList.filter (fun d => d ≠ c))

/-- Code-point lexicographic strict order on character lists. -/
def charListLt : List Char → List Char → Bool
  | [], [] => false
  | [], _ :: _ => true
  | _ :: _, [] => false
  | a :: as, b :: bs =>
    if a.toNat < b.toNat then true
    else if b.toNat < a.toNat then false
    else charListLt as bs

/-- Code-point lexicographic strict order on strings (Python `<`). -/
def pyStrLt (a b : String) : Bool := charListLt a.toList b.toList

/-- `_str(value)`: `str(value).strip() if value is not None else ""` applied to
an optional string. -/
def pyStr (v : Option String) : String := pyStrip (v.getD "")

/-- Python truthiness of an `str | None` value: `None` and `""` are falsy. -/
def truthyOptStr : Option String → Bool
  | some s => s != ""
  | none => false

/-- Python `s.rstrip(c)` for a single strip character. -/
def stripTrailingChar (s : String) (c : Char) : String :=
  String.mk ((s.toList.reverse.dropWhile (fun d => d = c)).reverse)

/-- Python `s.lstrip(c)` for a single strip character. -/
def stripLeadingChar (s : String) (c : Char) : String :=
  String.mk (s.toList.dropWhile (fun d => d = c))

/-- Python `s.strip(c)` for a single strip character. -/
def stripChar (s : String) (c : Char) : String :=
  stripLeadingChar (stripTrailingChar s c) c

/-- Python substring test `needle in hay` (for a fixed non-empty needle). -/
def hasSub (hay needle : String) : Bool :=
  if needle = "" then true else subOccurs needle.toList hay.toList

/-- Python `url.rsplit("/", 1)[-1]`: the part after the last slash. -/
def lastPathSegment (s : String) : String :=
  (splitOnChar s '/').getLastD s

/-- Insertion into a lexicographically sorted list of strings. -/
def insertSorted (x : String) : List String → List String
  | [] => [x]
  | y :: ys => if pyStrLt x y then x :: y :: ys else y :: insertSorted x ys

/-- Python `sorted` on a list of strings (code-point lexicographic order). -/
def sortStrings (l : List String) : List String := l.foldr insertSorted []

/-- One step of `re.sub(r"[^a-z0-9]+", "-", value)` processed right to left:
a character of the class is kept, a maximal run outside it becomes one dash. -/
def collapseStep (c : Char) (acc : List Char) : List Char :=
  if ('a' ≤ c ∧ c ≤ 'z') ∨ ('0' ≤ c ∧ c ≤ '9') then c :: acc
  else match acc with
    | '-' :: _ => acc
    | _ => '-' :: acc

/-- `_slugify`: `re.sub(r"[^a-z0-9]+", "-", value.lower()).strip("-")`. -/
def slugify (value : String) : String :=
  stripChar (String.mk ((pyLower value).toList.foldr collapseStep [])) '-'

/-- Association-list lookup with default 0, for the rule-id keyed dicts. -/
def lookupNat (l : List (String × Nat)) (k : String) : Nat :=
  ((l.find? (fun p => p.1 = k)).map (fun p => p.2)).getD 0

/-- Association-list lookup with default `[]`, for the highlight dict. -/
def lookupList (l : List (String × List String)) (k : String) : List String :=
  ((l.find? (fun p => p.1 = k)).map (fun p => p.2)).getD []

/-! ### The environment of library calls -/

/-- The result of `urllib.parse.urlparse` restricted to the components the
importer reads.  `port` distinguishes an absent port, a parsed value and a
value for which the `parsed.port` property raises `ValueError`. -/
inductive PortV
  | absent
  | val (n : Nat)
  | invalid
  deriving DecidableEq

structure PyUrl where
  scheme : String := ""
  username : Option String := none
  password : Option String := none
  hostname : Option String := none
  port : PortV := PortV.absent
  deriving DecidableEq

/-- An `ipaddress` address object, abstracted to the classification flags the
importer reads plus its `str` rendering. -/
structure PyIp where
  is_private : Bool := false
  is_loopback : Bool := false
  is_link_local : Bool := false
  is_multicast : Bool := false
  is_reserved : Bool := false
  is_unspecified : Bool := false
  text : String := ""
  deriving DecidableEq

/-- What one HTTP request produces, as seen through
`_NO_REDIRECT_OPENER.open`: a response object (status, Content-Type header,
Content-Length header, body bytes), an `HTTPError` (code plus possibly-absent
headers carrying Content-Type and Location), a `URLError`, or another
exception rendered by `str(exc)`. -/
inductive NetOutcome
  | success (status : Option Nat) (contentType : Option String)
      (contentLength : Option String) (body : List Nat)
  | httpError (code : Nat) (headers : Option (Option String × Option String))
  | urlError (reason : String)
  | exc (msg : String)
  deriving DecidableEq

/-- One tokenizer event of `html.parser.HTMLParser`; attribute values may be
`None` as in the Python API. -/
inductive HtmlEvent
  | startTag (tag : String) (attrs : List (String × Option String))
  | endTag (tag : String)
  | data (s : String)
  deriving DecidableEq

/-- The abstracted library calls.  Each field models exactly one standard
library / third-party call site of `irb_profile_importer.py`. -/
structure Env where
  /-- `urllib.parse.urlparse`, on inputs where it returns.  CPython's
  `urlparse` can also raise `ValueError` (e.g. "Invalid IPv6 URL"); that
  uncaught path is modeled by the exception-aware `EnvX` below. -/
  urlparse : String → PyUrl
  /-- `urllib.parse.urljoin`. -/
  urljoin : String → String → String
  /-- `ipaddress.ip_address` (`none` models the `ValueError` branch). -/
  parseIP : String → Option PyIp
  /-- `socket.getaddrinfo(host, None, proto=IPPROTO_TCP)`: the list of
  `info[4][0]` strings, or `error` for `socket.gaierror`.  A non-`gaierror`
  failure (e.g. `UnicodeError` on an invalid IDNA label) is modeled by the
  exception-aware `EnvX` below. -/
  getaddrinfo : String → Except Unit (List String)
  /-- `int(text)` on a string (`none` models `ValueError`). -/
  pyInt : String → Option Int
  /-- One HTTP request issued for a URL string. -/
  net : String → NetOutcome
  /-- `urllib.parse.quote_plus`. -/
  quotePlus : String → String
  /-- `urllib.parse.unquote`. -/
  unquote : String → String
  /-- `re.findall(r'href="([^"]+)"', html, flags=IGNORECASE)`. -/
  hrefFindall : String → List String
  /-- `parse_qs(urlparse(href).query).get("uddg", [""])[0]`. -/
  uddg : String → String
  /-- `pypdf.PdfReader(...).pages` texts (`page.extract_text() or ""` per
  page), or `error` when any step of the `try` block raises. -/
  pdfPages : List Nat → Except String (List String)
  /-- The raw group of `re.search(r"charset=([^\s;]+)", content_type, IGNORECASE)`. -/
  charsetOf : String → Option String
  /-- `payload.decode(charset, errors="replace")` (`none` models a raised
  `LookupError`/decoding failure). -/
  decodeBytes : String → List Nat → Option String
  /-- `payload.decode("utf-8", errors="replace")` (total). -/
  decodeUtf8 : List Nat → String
  /-- `HTMLParser.feed` tokenization of the document (`none` models the
  parser raising). -/
  tokenizeHtml : String → Option (List HtmlEvent)
  /-- `re.sub(r"<[^>]+>", " ", html_text)`. -/
  stripTags : String → String
  /-- `len(re.findall(pattern, lowered, flags=IGNORECASE))`. -/
  findallCount : String → String → Nat
  /-- `re.search(pattern, sentence, flags=IGNORECASE) is not None`. -/
  reSearch : String → String → Bool
  /-- `re.sub(r"\s+", " ", text)`. -/
  normWs : String → String
  /-- `re.split(r"(?<=[.!?])\s+", text)`. -/
  splitSent : String → List String
  /-- `datetime.now(timezone.utc).isoformat()`. -/
  now : String

/-! ### URL normalization and the URL security validator -/

/-- `_normalize_url`. -/
def normalize_url (env : Env) (url : String) : String :=
  let url := pyStrip url
  if url = "" then ""
  else
    let parsed := env.urlparse url
    if parsed.scheme ≠ "" then url
    else if pyStartsWith url "//" then "https:" ++ url
    else "https://" ++ url

/-- `_is_blocked_ip`. -/
def is_blocked_ip (ip : PyIp) : Bool :=
  ip.is_private || ip.is_loopback || ip.is_link_local || ip.is_multicast ||
    ip.is_reserved || ip.is_unspecified

/-- The resolution loop of `_host_resolves_to_blocked_ip` over the
`getaddrinfo` results. -/
def gai_loop (env : Env) : List String → Bool × String
  | [] => (false, "")
  | addr :: rest =>
    let resolved := beforeChar (pyStrip addr) '%'
    match env.parseIP resolved with
    | none => gai_loop env rest
    | some ip => if is_blocked_ip ip then (true, resolved) else gai_loop env rest

/-- `_host_resolves_to_blocked_ip`. -/
def host_resolves_to_blocked_ip (env : Env) (host : String) : Bool × String :=
  match env.parseIP host with
  | some directIp =>
    if is_blocked_ip directIp then (true, directIp.text) else (false, "")
  | none =>
    match env.getaddrinfo host with
    | Except.error _ => (false, "")
    | Except.ok infos => gai_loop env infos

/-- The final resolution check of `_validate_fetch_url`. -/
def resolve_check (env : Env) (host : String) : Bool × String :=
  let rb := host_resolves_to_blocked_ip env host
  if rb.1 then (false, "Resolved to private/local IP '" ++ rb.2 ++ "'.")
  else (true, "")

/-- `_validate_fetch_url`. -/
def validate_fetch_url (env : Env) (url : String) : Bool × String :=
  let parsed := env.urlparse url
  let scheme := pyLower (pyStrip parsed.scheme)
  if ALLOWED_FETCH_SCHEMES.contains scheme = false then
    (false, "Only http/https URLs are allowed.")
  else if truthyOptStr parsed.username || truthyOptStr parsed.password then
    (false, "URLs containing embedded credentials are blocked.")
  else
    let host := stripTrailingChar (pyLower (pyStr parsed.hostname)) '.'
    if host = "" then (false, "URL host is missing.")
    else if BLOCKED_HOSTNAMES.contains host then
      (false, "Blocked host '" ++ host ++ "'.")
    else
      match parsed.port with
      | PortV.invalid => (false, "Invalid URL port.")
      | PortV.val n =>
        if n ≠ 0 ∧ ALLOWED_FETCH_PORTS.contains n = false then
          (false, "Blocked non-standard port '" ++ toString n ++ "'.")
        else resolve_check env host
      | PortV.absent => resolve_check env host

/-! ### Bounded response reading and the redirect-following fetcher -/

/-- The body-reading half of `_read_response_payload`: `resp.read(cap + 1)`
followed by the length check.  The `Bool` records that `resp.read` was
invoked. -/
def read_body (body : List Nat) : Except String (List Nat) × Bool :=
  let payload := body.take (MAX_SOURCE_RESPONSE_BYTES + 1)
  if payload.length > MAX_SOURCE_RESPONSE_BYTES then
    (Except.error ("Response exceeded max size (" ++ toString MAX_SOURCE_RESPONSE_BYTES ++ " bytes)."), true)
  else (Except.ok payload, true)

/-- `_read_response_payload`.  The `Bool` of the result records whether the
body was read (`resp.read` reached). -/
def read_response_payload (pyInt : String → Option Int) (contentLength : Option String)
    (body : List Nat) : Except String (List Nat) × Bool :=
  let contentLengthS := pyStr contentLength
  if contentLengthS ≠ "" then
    let declared : Int := (pyInt contentLengthS).getD 0
    if declared > (MAX_SOURCE_RESPONSE_BYTES : Int) then
      (Except.error ("Response too large (" ++ toString declared ++ " bytes). Max is " ++
        toString MAX_SOURCE_RESPONSE_BYTES ++ " bytes."), false)
    else read_body body
  else read_body body

/-- The 4-tuple `_request_url` returns. -/
structure FetchResult where
  status : Option Nat
  contentType : String
  payload : List Nat
  error : Option String
  deriving DecidableEq

/-- The `while redirects <= MAX_REDIRECTS` loop of `_request_url`; `fuel` is
`MAX_REDIRECTS + 1 - redirects`.  The second component is the list of URL
strings for which an HTTP request was issued, in order. -/
def request_url_loop (env : Env) : Nat → String → FetchResult × List String
  | 0, _ =>
    ({ status := none, contentType := "", payload := [],
       error := some ("Too many redirects (>" ++ toString MAX_REDIRECTS ++ ").") }, [])
  | fuel + 1, target =>
    let v := validate_fetch_url env target
    if v.1 then
      match env.net target with
      | NetOutcome.success status contentType contentLength body =>
        (match (read_response_payload env.pyInt contentLength body).1 with
         | Except.ok payload =>
           ({ status := status, contentType := pyStr contentType, payload := payload,
              error := none }, [target])
         | Except.error msg =>
           ({ status := none, contentType := "", payload := [], error := some msg }, [target]))
      | NetOutcome.httpError code headers =>
        let contentType := match headers with
          | some h => pyStr h.1
          | none => ""
        if REDIRECT_HTTP_CODES.contains code then
          let location := match headers with
            | some h => pyStr h.2
            | none => ""
          if location = "" then
            ({ status := some code, contentType := contentType, payload := [],
               error := some ("Redirect (HTTP " ++ toString code ++ ") without Location header.") },
             [target])
          else
            let nextTarget := normalize_url env (env.urljoin target location)
            let r := request_url_loop env fuel nextTarget
            (r.1, target :: r.2)
        else
          ({ status := some code, contentType := contentType, payload := [],
             error := some ("HTTP " ++ toString code) }, [target])
      | NetOutcome.urlError reason =>
        ({ status := none, contentType := "", payload := [],
           error := some ("Network error: " ++ reason) }, [target])
      | NetOutcome.exc msg =>
        ({ status := none, contentType := "", payload := [], error := some msg }, [target])
    else
      ({ status := none, contentType := "", payload := [],
         error := some ("Blocked URL for security reasons: " ++ v.2) }, [])

/-- `_request_url`, instrumented with the list of URLs actually requested. -/
def request_url (env : Env) (url : String) : FetchResult × List String :=
  let target := normalize_url env url
  if target = "" then
    ({ status := none, contentType := "", payload := [], error := some "Empty URL." }, [])
  else request_url_loop env (MAX_REDIRECTS + 1) target

/-! ### Content extraction -/

/-- `_decode_text`. -/
def decode_text (env : Env) (contentType : String) (payload : List Nat) : String :=
  if payload.isEmpty then ""
  else
    let charset := match env.charsetOf contentType with
      | some g => stripChar (stripChar (pyStrip g) '"') '\''
      | none => "utf-8"
    match env.decodeBytes charset payload with
    | some s => s
    | none => env.decodeUtf8 payload

/-- `_extract_pdf_text`. -/
def extract_pdf_text (env : Env) (payload : List Nat) : String × Option String :=
  if payload.isEmpty then ("", some "Empty PDF payload.")
  else
    match env.pdfPages payload with
    | Except.ok pages =>
      let chunks := (pages.take 25).filter (fun text => text ≠ "")
      (String.intercalate "\n" chunks, none)
    | Except.error e => ("", some ("PDF text extraction unavailable (" ++ e ++ ")."))

/-- The mutable state of `_LinkTextExtractor`. -/
structure ExtState where
  inScript : Bool := false
  inStyle : Bool := false
  titleActive : Bool := false
  titleChunks : List String := []
  textChunks : List String := []
  links : List String := []
  deriving DecidableEq

/-- `dict(attrs).get("href")`: the last binding wins. -/
def attrsHref (attrs : List (String × Option String)) : Option (Option String) :=
  attrs.foldl (fun acc p => if p.1 = "href" then some p.2 else acc) none

/-- The `handle_starttag` / `handle_endtag` / `handle_data` logic of
`_LinkTextExtractor`, one tokenizer event at a time. -/
def ext_step (st : ExtState) : HtmlEvent → ExtState
  | HtmlEvent.startTag tag attrs =>
    let tag := tag.toLower
    if tag = "script" then { st with inScript := true }
    else if tag = "style" then { st with inStyle := true }
    else if tag = "title" then { st with titleActive := true }
    else if tag = "a" then
      match attrsHref attrs with
      | some (some href) =>
        if href ≠ "" then { st with links := st.links ++ [pyStrip href] } else st
      | _ => st
    else st
  | HtmlEvent.endTag tag =>
    let tag := tag.toLower
    if tag = "script" then { st with inScript := false }
    else if tag = "style" then { st with inStyle := false }
    else if tag = "title" then { st with titleActive := false }
    else st
  | HtmlEvent.data dataStr =>
    if st.inScript || st.inStyle then st
    else
      let text := pyStrip dataStr
      if text = "" then st
      else if st.titleActive then { st with titleChunks := st.titleChunks ++ [text] }
      else { st with textChunks := st.textChunks ++ [text] }

/-- Feeding the whole event stream through `_LinkTextExtractor`. -/
def ext_run (events : List HtmlEvent) : ExtState :=
  events.foldl ext_step {}

/-- The `title` property: `" ".join(self._title_chunks).strip()`. -/
def ext_title (st : ExtState) : String := pyStrip (String.intercalate " " st.titleChunks)

/-- The `text` property: `"\n".join(self._text_chunks)`. -/
def ext_text (st : ExtState) : String := String.intercalate "\n" st.textChunks

/-- The loop of `_resolve_links` with its `seen` set. -/
def resolve_links_aux (env : Env) (baseUrl : String) : List String → List String → List String
  | [], _ => []
  | href :: rest, seen =>
    let absolute := env.urljoin baseUrl href
    if ¬ (pyStartsWith absolute "http://" ∨ pyStartsWith absolute "https://") then
      resolve_links_aux env baseUrl rest seen
    else if seen.contains absolute then resolve_links_aux env baseUrl rest seen
    else absolute :: resolve_links_aux env baseUrl rest (absolute :: seen)

/-- `_resolve_links`. -/
def resolve_links (env : Env) (baseUrl : String) (links : List String) : List String :=
  resolve_links_aux env baseUrl (links.take MAX_LINKS_PER_PAGE) []

/-- Order-preserving deduplication of strings with a `seen` set. -/
def dedup_strings_aux : List String → List String → List String
  | [], _ => []
  | x :: xs, seen =>
    if seen.contains x then dedup_strings_aux xs seen
    else x :: dedup_strings_aux xs (x :: seen)

def dedup_strings (l : List String) : List String := dedup_strings_aux l []

/-- `_extract_doc_links`. -/
def extract_doc_links (links : List String) : List String :=
  let matched := links.filter (fun link =>
    let lower := pyLower link
    (pyEndsWith lower ".pdf" || pyEndsWith lower ".doc" || pyEndsWith lower ".docx" ||
      pyEndsWith lower ".rtf") ||
    (["consent", "template", "application", "checklist", "protocol"].any
      (fun hint => hasSub lower hint)))
  (dedup_strings matched).take 18

/-! ### Requirement signal extraction -/

/-- `_sentences`. -/
def sentences_of (env : Env) (text : String) : List String :=
  let t := pyStrip (env.normWs text)
  if t = "" then []
  else (env.splitSent t).filterMap (fun part =>
    let p := pyStrip part
    if p = "" then none else some p)

/-- `_rule_hits`: per-rule total count of case-insensitive pattern matches. -/
def rule_hits (env : Env) (text : String) : List (String × Nat) :=
  let lowered := pyLower text
  REQUIREMENT_RULES.map (fun rule =>
    (rule.id, (rule.patterns.map (fun pattern => env.findallCount pattern lowered)).sum))

/-- The sentence-collecting loop of `_rule_highlights`; the counter is the
number of sentences matched so far (`break` once it reaches `maxItems`). -/
def rule_highlights_aux (env : Env) (patterns : List String) (maxItems : Nat) :
    List String → Nat → List String
  | [], _ => []
  | sentence :: rest, count =>
    if patterns.any (fun pattern => env.reSearch pattern sentence) then
      if count + 1 ≥ maxItems then [sentence]
      else sentence :: rule_highlights_aux env patterns maxItems rest (count + 1)
    else
      if count ≥ maxItems then []
      else rule_highlights_aux env patterns maxItems rest count

/-- `_rule_highlights`. -/
def rule_highlights (env : Env) (text ruleId : String) (maxItems : Nat) : List String :=
  match REQUIREMENT_RULES.find? (fun r => r.id = ruleId) with
  | none => []
  | some rule => rule_highlights_aux env rule.patterns maxItems (sentences_of env text) 0

/-! ### SourceDoc and fetching one source -/

/-- The `SourceDoc` dataclass. -/
structure SourceDoc where
  url : String
  source_type : String
  status : String := "unfetched"
  http_status : Option Nat := none
  content_type : String := ""
  title : String := ""
  text : String := ""
  links : Option (List String) := none
  error : Option String := none
  deriving DecidableEq

/-- The metadata dict produced by `SourceDoc.as_metadata`. -/
structure SourceMeta where
  url : String
  sourceType : String
  status : String
  httpStatus : Option Nat
  contentType : String
  title : String
  error : String
  matchedRequirementIds : List String
  deriving DecidableEq

/-- `SourceDoc.as_metadata`. -/
def SourceDoc.as_metadata (s : SourceDoc) (requirementHits : List (String × Nat)) : SourceMeta :=
  { url := s.url, sourceType := s.source_type, status := s.status,
    httpStatus := s.http_status, contentType := s.content_type, title := s.title,
    error := s.error.getD "",
    matchedRequirementIds :=
      sortStrings ((requirementHits.filter (fun p => p.2 > 0)).map (fun p => p.1)) }

/-- The body of `_fetch_source` past the error/empty-payload guards: content
dispatch on PDF versus HTML. -/
def fetch_source_body (env : Env) (source : SourceDoc) (payload : List Nat) : SourceDoc :=
  let contentTypeLower := pyLower source.content_type
  let urlLower := pyLower source.url
  if hasSub contentTypeLower "application/pdf" || pyEndsWith urlLower ".pdf" then
    let tp := extract_pdf_text env payload
    let source := { source with
      title := lastPathSegment source.url,
      text := pyTake tp.1 MAX_TEXT_CHARS,
      links := some [],
      status := "fetched" }
    if truthyOptStr tp.2 && ! truthyOptStr source.error then
      { source with error := tp.2 }
    else source
  else
    let htmlText := decode_text env source.content_type payload
    let st := match env.tokenizeHtml htmlText with
      | some events => ext_run events
      | none => { ExtState.mk false false false [] [env.stripTags htmlText] [] with links := [] }
    { source with
      title := if ext_title st ≠ "" then ext_title st else source.url,
      text := pyTake (ext_text st) MAX_TEXT_CHARS,
      links := some (resolve_links env source.url st.links),
      status := "fetched" }

/-- `_fetch_source`, instrumented with the list of URLs requested on its
behalf. -/
def fetch_source (env : Env) (source : SourceDoc) : SourceDoc × List String :=
  let r := request_url env source.url
  let fr := r.1
  let source := { source with http_status := fr.status, content_type := fr.contentType }
  let outDoc :=
    match fr.error with
    | some e =>
      if e ≠ "" then { source with status := "failed", error := some e }
      else if fr.payload.isEmpty then
        { source with status := "failed", error := some "Empty response." }
      else fetch_source_body env source fr.payload
    | none =>
      if fr.payload.isEmpty then
        { source with status := "failed", error := some "Empty response." }
      else fetch_source_body env source fr.payload
  (outDoc, r.2)

/-! ### Search and candidate building -/

/-- The collection loop of `_extract_search_result_urls` over the href
matches. -/
def search_urls_collect (env : Env) : List String → List String
  | [] => []
  | m :: rest =>
    let href := env.unquote m
    if hasSub href "duckduckgo.com/l/?" then
      let target := env.uddg href
      if target ≠ "" then target :: search_urls_collect env rest
      else search_urls_collect env rest
    else if pyStartsWith href "http" then href :: search_urls_collect env rest
    else search_urls_collect env rest

/-- The dedup-and-cap loop at the end of `_extract_search_result_urls`
(`break` once 7 results are collected). -/
def dedup_cap_aux : List String → List String → Nat → List String
  | [], _, _ => []
  | u :: rest, seen, remaining =>
    if seen.contains u then dedup_cap_aux rest seen remaining
    else if remaining ≤ 1 then [u]
    else u :: dedup_cap_aux rest (u :: seen) (remaining - 1)

/-- `_extract_search_result_urls`. -/
def extract_search_result_urls (env : Env) (htmlText : String) : List String :=
  dedup_cap_aux (search_urls_collect env (env.hrefFindall htmlText)) [] 7

/-- One iteration of the `_run_search_queries` loop; the state is
`(results, requested-URL log, done)` where `done` records the `break`. -/
def search_query_step (env : Env) (orgName : String)
    (st : List String × List String × Bool) (template : String → String) :
    List String × List String × Bool :=
  if st.2.2 then st
  else
    let query := template orgName
    let searchUrl := "https://duckduckgo.com/html/?q=" ++ env.quotePlus query
    let r := request_url env searchUrl
    let fr := r.1
    let log := st.2.1 ++ r.2
    if fr.payload.isEmpty || (match fr.status with
        | some s => decide (400 ≤ s)
        | none => false) then
      (st.1, log, false)
    else
      let htmlText := decode_text env fr.contentType fr.payload
      let results := (extract_search_result_urls env htmlText).foldl
        (fun acc link => if acc.contains link then acc else acc ++ [link]) st.1
      (results, log, results.length ≥ 8)

/-- `_run_search_queries`, instrumented with the requested-URL log. -/
def run_search_queries (env : Env) (orgName : String) : List String × List String :=
  let st := SEARCH_QUERIES.foldl (search_query_step env orgName) ([], [], false)
  (st.1, st.2.1)

/-- Order-preserving deduplication of the candidate `SourceDoc` list with a
`seen` URL set, skipping empty URLs. -/
def dedup_docs_aux : List SourceDoc → List String → List SourceDoc
  | [], _ => []
  | s :: rest, seen =>
    if s.url = "" ∨ seen.contains s.url then dedup_docs_aux rest seen
    else s :: dedup_docs_aux rest (s.url :: seen)

/-- A fresh unfetched candidate (`SourceDoc(url=..., source_type=...)`). -/
def mkCandidate (url sourceType : String) : SourceDoc :=
  { url := url, source_type := sourceType }

/-- `_build_candidate_urls`, instrumented with the requested-URL log of the
search fallback. -/
def build_candidate_urls (env : Env) (orgName organizationWebsite irbPageUrl : String) :
    List SourceDoc × List String :=
  let irbUrl := normalize_url env irbPageUrl
  let sources₁ := if irbUrl ≠ "" then [mkCandidate irbUrl "web"] else []
  let base := normalize_url env organizationWebsite
  let sources₂ := sources₁ ++
    (if base ≠ "" then
      mkCandidate base "web" ::
        LIKELY_IRB_PATHS.map (fun path =>
          mkCandidate (env.urljoin (stripTrailingChar base '/' ++ "/") (stripLeadingChar path '/'))
            "guessed")
    else [])
  let sources₃ := sources₂ ++
    (if base = "" ∧ orgName ≠ "" then
      let guessedHost := removeChar (slugify orgName) '-'
      if guessedHost ≠ "" then
        mkCandidate ("https://" ++ guessedHost ++ ".edu") "guessed" ::
          (LIKELY_IRB_PATHS.take 3).map (fun path =>
            mkCandidate ("https://" ++ guessedHost ++ ".edu" ++ path) "guessed")
      else []
    else [])
  let shouldSearch := irbUrl = "" ∧ base = ""
  let searchOut := if shouldSearch ∧ orgName ≠ "" then run_search_queries env orgName else ([], [])
  let sources₄ := sources₃ ++ searchOut.1.map (fun link => mkCandidate link "search")
  ((dedup_docs_aux sources₄ []).take MAX_SOURCE_FETCH, searchOut.2)

/-! ### Aggregation of requirement signals over all fetched sources -/

/-- The per-source hit mapping used inside the aggregation loop of
`import_irb_profile`: `_rule_hits(text) if text else {rule_id: 0}` over
`(source.text or "")[:MAX_TEXT_CHARS]`. -/
def source_hits (env : Env) (source : SourceDoc) : List (String × Nat) :=
  let text := pyTake source.text MAX_TEXT_CHARS
  if text ≠ "" then rule_hits env text
  else REQUIREMENT_RULES.map (fun rule => (rule.id, 0))

/-- The inner sentence-adding loop of the highlights update (`break` once
three highlights are stored for the rule). -/
def add_highlights : List String → List String → List String
  | cur, [] => cur
  | cur, sentence :: rest =>
    let cur := if cur.contains sentence then cur else cur ++ [sentence]
    if cur.length ≥ 3 then cur else add_highlights cur rest

/-- The mutable aggregation state of `import_irb_profile`'s per-source loop:
`hits_aggregate` and `rule_highlights`, both keyed by rule id in rule
order. -/
structure AggState where
  hitsAgg : List (String × Nat)
  highlights : List (String × List String)
  deriving DecidableEq

def agg_init : AggState :=
  { hitsAgg := REQUIREMENT_RULES.map (fun rule => (rule.id, 0)),
    highlights := REQUIREMENT_RULES.map (fun rule => (rule.id, [])) }

/-- One iteration of the aggregation loop for one source.  `hits_aggregate`
and the per-source `hits` dict have the same key set in the same order, so
the `+=` update is the pointwise sum. -/
def agg_step (env : Env) (st : AggState) (source : SourceDoc) : AggState :=
  let text := pyTake source.text MAX_TEXT_CHARS
  let hits := source_hits env source
  { hitsAgg := st.hitsAgg.map (fun p => (p.1, p.2 + lookupNat hits p.1)),
    highlights := st.highlights.map (fun p =>
      if lookupNat hits p.1 > 0 ∧ p.2.length < 3 then
        (p.1, add_highlights p.2 (rule_highlights env text p.1 2))
      else p) }

/-- One entry of the `signal_summaries` list. -/
structure SignalSummary where
  id : String
  label : String
  evidenceCount : Nat
  summary : String
  highlights : List String
  deriving DecidableEq

/-- The `signal_summaries` construction: one summary per rule with a positive
aggregate count, in rule order. -/
def signal_summaries_of (hitsAgg : List (String × Nat))
    (highlights : List (String × List String)) : List SignalSummary :=
  REQUIREMENT_RULES.filterMap (fun rule =>
    let count := lookupNat hitsAgg rule.id
    if count ≤ 0 then none
    else some { id := rule.id, label := rule.label, evidenceCount := count,
                summary := rule.summary,
                highlights := (lookupList highlights rule.id).take 3 })

/-! ### Confidence -/

/-- `weight_score`: the sum of the weights of the triggered rules (a rule
skipped by the generator contributes 0). -/
def triggered_weight_sum (hits : String → Nat) : ℚ :=
  (REQUIREMENT_RULES.map (fun rule => if hits rule.id > 0 then rule.weight else 0)).sum

/-- Whether any rule triggered; `signal_summaries` is non-empty exactly when
this holds (see `signal_summaries_of_ne_nil_iff`). -/
def any_signal (hits : String → Nat) : Bool :=
  REQUIREMENT_RULES.any (fun rule => hits rule.id > 0)

/-- The confidence computation of `import_irb_profile` (the value of the
local variable `confidence` after clamping, before the final two-decimal
rounding). -/
def confidence_score (fetchedCount failedCount : Nat) (hits : String → Nat) : ℚ :=
  let c₀ : ℚ := 0.22
  let c₁ := if fetchedCount > 0 then c₀ + 0.24 else c₀
  let c₂ := if any_signal hits then c₁ + min (0.42 : ℚ) (triggered_weight_sum hits) else c₁
  let c₃ := if failedCount > fetchedCount then c₂ - 0.08 else c₂
  let c₄ := if ¬ any_signal hits then c₃ - 0.05 else c₃
  max (0.08 : ℚ) (min (0.93 : ℚ) c₄)

/-- `round(x, 2)` over the exact rationals. -/
def round2 (q : ℚ) : ℚ := (round (q * 100) : ℤ) / 100

/-! ### Profile draft assembly -/

structure Attachment where
  id : String
  label : String
  reason : String
  deriving DecidableEq

/-- The parts of the caller-supplied base profile that
`_build_imported_profile` reads or rewrites; every other key of the dict
passes through the deep copy untouched and is not observable through the
claims. -/
structure BaseProfile where
  requiredManualAttachments : List Attachment := []
  recommendedManualAttachments : List Attachment := []
  deriving DecidableEq

/-- The draft profile dict assembled by `_build_imported_profile`. -/
structure Profile where
  id : String
  name : String
  shortName : String
  version : String
  description : String
  imported : Bool
  importedAt : String
  sourceLinks : List String
  sourceDocumentLinks : List String
  importSignals : List (String × Nat)
  requiredManualAttachments : List Attachment
  recommendedManualAttachments : List Attachment
  deriving DecidableEq

/-- `ensure_required` / `ensure_recommended`: append unless an attachment
with the same id is already present. -/
def ensure_attachment (items : List Attachment) (a : Attachment) : List Attachment :=
  if items.any (fun item => pyStrip item.id = a.id) then items else items ++ [a]

/-- `_build_imported_profile`. -/
def build_imported_profile (env : Env) (orgName profileId : String)
    (hitsAggregate : List (String × Nat)) (sourceDocs : List SourceDoc)
    (documentLinks : List String) (baseProfile : BaseProfile) : Profile :=
  let requiredManual₀ := baseProfile.requiredManualAttachments
  let recommendedManual₀ := baseProfile.recommendedManualAttachments
  let requiredManual₁ :=
    if lookupNat hitsAggregate "consent_template" > 0 then
      ensure_attachment requiredManual₀
        { id := "institution_consent_template_check",
          label := "Institution Consent Template Alignment",
          reason := "Source pages mention consent templates/process requirements; align consent draft to local template language." }
    else requiredManual₀
  let requiredManual₂ :=
    if lookupNat hitsAggregate "training" > 0 then
      ensure_attachment requiredManual₁
        { id := "research_training_documentation",
          label := "Human Subjects Training Proof",
          reason := "Source pages mention required research ethics training (e.g., CITI)." }
    else requiredManual₁
  let requiredManual₃ :=
    if lookupNat hitsAggregate "recruitment_materials" > 0 then
      ensure_attachment requiredManual₂
        { id := "recruitment_materials_copy",
          label := "Recruitment Materials Copy",
          reason := "Source pages mention recruitment material review." }
    else requiredManual₂
  let recommendedManual₁ :=
    if lookupNat hitsAggregate "hipaa_health_data" > 0 then
      ensure_attachment recommendedManual₀
        { id := "hipaa_screening_note",
          label := "HIPAA / PHI Applicability Note",
          reason := "Source pages reference HIPAA/PHI; confirm whether health-data rules apply to your protocol." }
    else recommendedManual₀
  let recommendedManual₂ :=
    if documentLinks ≠ [] then
      ensure_attachment recommendedManual₁
        { id := "imported_form_link_review",
          label := "Imported IRB Form/Template Link Review",
          reason := "Importer found possible IRB form/template links. Validate versions before submission." }
    else recommendedManual₁
  { id := profileId,
    name := orgName ++ " IRB Draft Profile (Imported)",
    shortName := orgName ++ " Imported IRB",
    version := "importer-v1",
    description := "Draft imported profile for " ++ orgName ++
      ". Generated from publicly available IRB/HRPP sources; requires human verification before use.",
    imported := true,
    importedAt := env.now,
    sourceLinks := (((sourceDocs.filter (fun doc => doc.status = "fetched")).map
      (fun doc => doc.url)).take 12),
    sourceDocumentLinks := documentLinks.take 18,
    importSignals := hitsAggregate.filter (fun p => p.2 > 0),
    requiredManualAttachments := requiredManual₃,
    recommendedManualAttachments := recommendedManual₂ }

/-! ### The import pipeline -/

structure ImportStats where
  candidateSourceCount : Nat
  fetchedSourceCount : Nat
  failedSourceCount : Nat
  signalCount : Nat
  deriving DecidableEq

structure DebugContext where
  organizationWebsite : String
  irbPageUrl : String
  usedRawPolicyText : Bool
  deriving DecidableEq

/-- The result dict of `import_irb_profile` (the `debug` sub-dict is split
into its two entries). -/
structure ImportResult where
  organizationName : String
  profileDraft : Profile
  confidence : ℚ
  warnings : List String
  notes : List String
  sources : List SourceMeta
  signals : List SignalSummary
  documentLinks : List String
  stats : ImportStats
  debugRequestContext : DebugContext
  debugSignalHits : List (String × Nat)
  deriving DecidableEq

/-- An import run: the returned result plus instrumentation (the candidate
list, the final `fetched_sources` list, and every URL for which an HTTP
request was issued). -/
structure ImportRun where
  result : ImportResult
  candidates : List SourceDoc
  docs : List SourceDoc
  netLog : List String
  deriving DecidableEq

/-- The synthetic inline source prepended when raw policy text is given. -/
def inline_source_doc (orgName rawPolicyText : String) : SourceDoc :=
  { url := "inline://raw_policy_text", source_type := "inline_text",
    status := "fetched", http_status := none, content_type := "text/plain",
    title := orgName ++ " (Pasted Policy Text)",
    text := pyTake rawPolicyText MAX_TEXT_CHARS, links := some [], error := none }

/-- The follow-up PDF fetch loop (`break` after `MAX_PDF_SOURCES_TO_PARSE`
attempts; non-`.pdf` links are skipped without consuming an attempt). -/
def pdf_followups (env : Env) : List String → Nat → List SourceDoc × List String
  | [], _ => ([], [])
  | link :: rest, attempts =>
    if attempts ≥ MAX_PDF_SOURCES_TO_PARSE then ([], [])
    else if ¬ (pyEndsWith (pyLower link) ".pdf" = true) then pdf_followups env rest attempts
    else
      let p := fetch_source env (mkCandidate link "web")
      let q := pdf_followups env rest (attempts + 1)
      (p.1 :: q.1, p.2 ++ q.2)

/-- The body of `import_irb_profile` past the organization-name guard.  The
fetch loop appends, per candidate in order, the candidate itself when it is
the inline source and `_fetch_source`'s result otherwise; that per-element
form is written as a `map`.  The final `confidence` uses
`confidence_score`, whose `any_signal` test agrees with the code's
`if signal_summaries:` test by `signal_summaries_of_ne_nil_iff`. -/
def import_core (env : Env)
    (orgName organizationWebsite irbPageUrl rawPolicyText profileId : String)
    (baseProfile : BaseProfile) : ImportRun :=
  let bc := build_candidate_urls env orgName organizationWebsite irbPageUrl
  let candidateSources :=
    if pyStrip rawPolicyText ≠ "" then
      inline_source_doc orgName rawPolicyText :: bc.1
    else bc.1
  let fetchedDocs₀ := candidateSources.map (fun source =>
    if source.source_type = "inline_text" then source else (fetch_source env source).1)
  let fetchLog := (candidateSources.map (fun source =>
    if source.source_type = "inline_text" then [] else (fetch_source env source).2)).flatten
  let discovered := ((fetchedDocs₀.filter (fun source => source.status = "fetched")).map
    (fun source => extract_doc_links (source.links.getD []))).flatten
  let dedupDocLinks := dedup_strings discovered
  let pf := pdf_followups env dedupDocLinks 0
  let fetchedDocs := fetchedDocs₀ ++ pf.1
  let agg := fetchedDocs.foldl (agg_step env) agg_init
  let sourceMetadata := fetchedDocs.map (fun source =>
    SourceDoc.as_metadata source (source_hits env source))
  let signalSummaries := signal_summaries_of agg.hitsAgg agg.highlights
  let profileIdFinal :=
    if profileId = "" then "imported_" ++ slugify orgName ++ "_v1" else profileId
  let importedProfile := build_imported_profile env orgName profileIdFinal agg.hitsAgg
    fetchedDocs dedupDocLinks baseProfile
  let fetchedCount := (fetchedDocs.filter (fun source => source.status = "fetched")).length
  let failedCount := (fetchedDocs.filter (fun source => source.status = "failed")).length
  let confidence := confidence_score fetchedCount failedCount (lookupNat agg.hitsAgg)
  let warnings :=
    (if fetchedCount = 0 then
      ["No source pages were successfully fetched. Draft profile uses fallback assumptions."]
    else []) ++
    (if failedCount > 0 then
      [toString failedCount ++ " source requests failed; requirements may be incomplete."]
    else []) ++
    (if signalSummaries.isEmpty then
      ["No strong requirement signals detected from sources; verify manually."]
    else []) ++
    (if dedupDocLinks ≠ [] then
      ["Document links were detected but may not be the latest official form versions."]
    else []) ++
    ["Imported profile is a best-effort draft and must be validated against your institution's official IRB office instructions."]
  let notes :=
    ["Importer searches public IRB/HRPP pages and extracts requirement signals via keyword heuristics.",
     "Use source links and highlights as verification starting points before relying on the generated profile."]
  { result :=
    { organizationName := orgName,
      profileDraft := importedProfile,
      confidence := round2 confidence,
      warnings := warnings,
      notes := notes,
      sources := sourceMetadata,
      signals := signalSummaries,
      documentLinks := dedupDocLinks.take 18,
      stats :=
        { candidateSourceCount := candidateSources.length,
          fetchedSourceCount := fetchedCount,
          failedSourceCount := failedCount,
          signalCount := signalSummaries.length },
      debugRequestContext :=
        { organizationWebsite := normalize_url env organizationWebsite,
          irbPageUrl := normalize_url env irbPageUrl,
          usedRawPolicyText := pyStrip rawPolicyText != "" },
      debugSignalHits := agg.hitsAgg },
    candidates := candidateSources,
    docs := fetchedDocs,
    netLog := bc.2 ++ fetchLog ++ pf.2 }

/-- `import_irb_profile` over the total environment `Env`, i.e. on runs in
which every library call returns: the organization-name guard raises
(`Except.error`) when the stripped name is empty, and otherwise the
assembled result is returned.  The exception-aware entry point (library
calls that may raise) is `import_irb_profileX` below, whose successful runs
refine this one (`import_coreX_ok`). -/
def import_irb_profile (env : Env)
    (orgName organizationWebsite irbPageUrl rawPolicyText profileId : String)
    (baseProfile : Option BaseProfile) : Except String ImportRun :=
  let orgName := pyStrip orgName
  if orgName = "" then Except.error "organizationName is required."
  else Except.ok (import_core env orgName organizationWebsite irbPageUrl rawPolicyText
    profileId (baseProfile.getD {}))

/-! ### Validator preconditions and basic facts -/

/-- The processed host of `_validate_fetch_url`:
`_str(parsed.hostname).lower().rstrip(".")`. -/
def processed_host (u : PyUrl) : String :=
  stripTrailingChar (pyLower (pyStr u.hostname)) '.'

/-- The scheme, credential and host checks of `_validate_fetch_url` all
pass. -/
def pre_port_checks_ok (env : Env) (url : String) : Prop :=
  ALLOWED_FETCH_SCHEMES.contains (pyLower (pyStrip (env.urlparse url).scheme)) = true ∧
  truthyOptStr (env.urlparse url).username = false ∧
  truthyOptStr (env.urlparse url).password = false ∧
  processed_host (env.urlparse url) ≠ "" ∧
  BLOCKED_HOSTNAMES.contains (processed_host (env.urlparse url)) = false

/-- The port check of `_validate_fetch_url` passes (recall the code's
`if port and port not in ALLOWED_FETCH_PORTS`, under which a parsed port 0
is falsy and therefore passes). -/
def port_ok (u : PyUrl) : Prop :=
  match u.port with
  | PortV.absent => True
  | PortV.val n => n = 0 ∨ ALLOWED_FETCH_PORTS.contains n = true
  | PortV.invalid => False

/-- All checks of `_validate_fetch_url` before the resolution check pass. -/
def pre_resolution_ok (env : Env) (url : String) : Prop :=
  pre_port_checks_ok env url ∧ port_ok (env.urlparse url)

theorem validate_eq_resolve_check (env : Env) (url : String)
    (h : pre_resolution_ok env url) :
    validate_fetch_url env url = resolve_check env (processed_host (env.urlparse url)) := by
  obtain ⟨⟨h1, h2, h3, h4, h5⟩, h6⟩ := h
  unfold port_ok at h6
  unfold processed_host at h4 h5 ⊢
  unfold validate_fetch_url
  dsimp only
  simp only [h1, h2, h3, h4, h5, Bool.or_self, Bool.true_eq_false, Bool.false_eq_true,
    if_false, ite_false, ne_eq, not_false_eq_true, if_true, ite_true]
  rcases hport : (env.urlparse url).port with _ | n | _
  · rfl
  · rw [hport] at h6
    dsimp only at h6 ⊢
    rcases h6 with h0 | hin
    · rw [if_neg]
      intro hcontra
      exact hcontra.1 h0
    · rw [if_neg]
      intro hcontra
      rw [hin] at hcontra
      exact absurd hcontra.2 (by simp)
  · rw [hport] at h6
    exact h6.elim

theorem host_blocked_of_literal (env : Env) (host : String) (ip : PyIp)
    (hp : env.parseIP host = some ip) (hb : is_blocked_ip ip = true) :
    host_resolves_to_blocked_ip env host = (true, ip.text) := by
  unfold host_resolves_to_blocked_ip
  rw [hp]
  simp [hb]

theorem gai_loop_blocked (env : Env) (addrs : List String) (a : String) (ip : PyIp)
    (ha : a ∈ addrs) (hp : env.parseIP (beforeChar (pyStrip a) '%') = some ip)
    (hb : is_blocked_ip ip = true) : (gai_loop env addrs).1 = true := by
  induction addrs with
  | nil => cases ha
  | cons b rest ih =>
    rcases List.mem_cons.mp ha with rfl | hmem
    · unfold gai_loop
      dsimp only
      rw [hp]
      simp [hb]
    · unfold gai_loop
      dsimp only
      rcases hpb : env.parseIP (beforeChar (pyStrip b) '%') with _ | ipb
      · simp only [hpb]
        exact ih hmem
      · by_cases hbb : is_blocked_ip ipb = true
        · simp [hpb, hbb]
        · simp only [hpb, hbb, Bool.false_eq_true, if_false, ite_false]
          exact ih hmem

/-! ### Concrete test environments (used by witnesses and counterexamples) -/

/-- A baseline environment: empty parses, failing DNS, a network that is
down, inert regular-expression helpers. -/
def envDefault : Env :=
  { urlparse := fun _ => {}, urljoin := fun _ l => l, parseIP := fun _ => none,
    getaddrinfo := fun _ => Except.error (), pyInt := fun _ => none,
    net := fun _ => NetOutcome.urlError "down", quotePlus := id, unquote := id,
    hrefFindall := fun _ => [], uddg := fun _ => "",
    pdfPages := fun _ => Except.error "no pypdf", charsetOf := fun _ => none,
    decodeBytes := fun _ _ => none, decodeUtf8 := fun _ => "",
    tokenizeHtml := fun _ => some [], stripTags := id,
    findallCount := fun _ _ => 0, reSearch := fun _ _ => false,
    normWs := id, splitSent := fun s => [s], now := "2026-01-01T00:00:00+00:00" }

/-- A URL whose hostname is the literal private address 10.0.0.5. -/
def envLiteralIp : Env :=
  { envDefault with
    urlparse := fun _ => { scheme := "http", hostname := some "10.0.0.5" },
    parseIP := fun s =>
      if s = "10.0.0.5" then some { is_private := true, text := "10.0.0.5" } else none }

/-- A public-looking hostname whose DNS resolution returns the private
address 10.0.0.5. -/
def envRebind : Env :=
  { envDefault with
    urlparse := fun _ => { scheme := "http", hostname := some "internal.example" },
    parseIP := fun s =>
      if s = "10.0.0.5" then some { is_private := true, text := "10.0.0.5" } else none,
    getaddrinfo := fun _ => Except.ok ["10.0.0.5"] }

/-- A hostname whose DNS resolution raises `socket.gaierror`. -/
def envDnsFail : Env :=
  { envDefault with
    urlparse := fun _ => { scheme := "http", hostname := some "nxdomain.example" } }

/-- C2: a URL whose hostname is a literal IP of a blocked class, or whose DNS
resolution returns at least one address of a blocked class (private,
loopback, link-local, multicast, reserved, unspecified), is rejected by the
validator once the earlier scheme/credential/host/port checks pass; and a
DNS resolution failure is not a validator failure — the validator then
returns allowed, deferring the failure to the fetch attempt. -/
theorem C2_resolution_blocking :
    (∀ (env : Env) (url : String) (ip : PyIp),
      pre_resolution_ok env url →
      env.parseIP (processed_host (env.urlparse url)) = some ip →
      is_blocked_ip ip = true →
      validate_fetch_url env url =
        (false, "Resolved to private/local IP '" ++ ip.text ++ "'.")) ∧
    (∀ (env : Env) (url : String) (addrs : List String) (a : String) (ip : PyIp),
      pre_resolution_ok env url →
      env.parseIP (processed_host (env.urlparse url)) = none →
      env.getaddrinfo (processed_host (env.urlparse url)) = Except.ok addrs →
      a ∈ addrs →
      env.parseIP (beforeChar (pyStrip a) '%') = some ip →
      is_blocked_ip ip = true →
      (validate_fetch_url env url).1 = false) ∧
    (∀ (env : Env) (url : String),
      pre_resolution_ok env url →
      env.parseIP (processed_host (env.urlparse url)) = none →
      env.getaddrinfo (processed_host (env.urlparse url)) = Except.error () →
      validate_fetch_url env url = (true, "")) := by
  refine ⟨?_, ?_, ?_⟩
  · intro env url ip hpre hp hb
    rw [validate_eq_resolve_check env url hpre]
    unfold resolve_check
    rw [host_blocked_of_literal env _ ip hp hb]
    rfl
  · intro env url addrs a ip hpre hnone hgai ha hp hb
    rw [validate_eq_resolve_check env url hpre]
    unfold resolve_check host_resolves_to_blocked_ip
    rw [hnone, hgai]
    have ht := gai_loop_blocked env addrs a ip ha hp hb
    simp [ht]
  · intro env url hpre hnone hgai
    rw [validate_eq_resolve_check env url hpre]
    unfold resolve_check host_resolves_to_blocked_ip
    rw [hnone, hgai]
    rfl

theorem C2_resolution_blocking_witness :
    pre_resolution_ok envLiteralIp "http://10.0.0.5/" ∧
    validate_fetch_url envLiteralIp "http://10.0.0.5/" =
      (false, "Resolved to private/local IP '10.0.0.5'.") ∧
    (validate_fetch_url envRebind "http://internal.example/").1 = false ∧
    validate_fetch_url envDnsFail "http://nxdomain.example/" = (true, "") := by
  refine ⟨⟨⟨by decide, by decide, by decide, by decide, by decide⟩, trivial⟩, ?_, ?_, ?_⟩
  · have h := C2_resolution_blocking.1 envLiteralIp "http://10.0.0.5/"
      { is_private := true, text := "10.0.0.5" }
      ⟨⟨by decide, by decide, by decide, by decide, by decide⟩, trivial⟩
      (by decide) (by decide)
    rw [h]
    decide
  · exact C2_resolution_blocking.2.1 envRebind "http://internal.example/" ["10.0.0.5"]
      "10.0.0.5" { is_private := true, text := "10.0.0.5" }
      ⟨⟨by decide, by decide, by decide, by decide, by decide⟩, trivial⟩
      (by decide) rfl (by decide) (by decide) (by decide)
  · exact C2_resolution_blocking.2.2 envDnsFail "http://nxdomain.example/"
      ⟨⟨by decide, by decide, by decide, by decide, by decide⟩, trivial⟩
      (by decide) rfl

/-- A URL parsing to the explicit port 0 (`urlparse` accepts `":0"` and its
`port` property returns 0). -/
def envPort0 : Env :=
  { envDefault with
    urlparse := fun _ =>
      { scheme := "http", hostname := some "example.edu", port := PortV.val 0 } }

/-- A URL parsing to the explicit non-standard port 8080. -/
def envPort8080 : Env :=
  { envDefault with
    urlparse := fun _ =>
      { scheme := "http", hostname := some "example.edu", port := PortV.val 8080 } }

/-- A URL whose `parsed.port` property raises `ValueError`. -/
def envPortInvalid : Env :=
  { envDefault with
    urlparse := fun _ =>
      { scheme := "http", hostname := some "example.edu", port := PortV.invalid } }

/-- C8 counterexample: the URL `http://example.edu:0/` carries the explicit
port 0, which is not 80 or 443, yet the validator allows it — the code's
`if port and port not in ALLOWED_FETCH_PORTS` treats the falsy port 0 as if
no port were given. -/
theorem C8_port0_counterexample :
    (envPort0.urlparse "http://example.edu:0/").port = PortV.val 0 ∧
    ALLOWED_FETCH_PORTS.contains 0 = false ∧
    validate_fetch_url envPort0 "http://example.edu:0/" = (true, "") :=
  ⟨rfl, by decide, by decide⟩

/-- C8 (amended): for every URL carrying an explicit non-zero port other
than 80 or 443 (the earlier scheme, credential and host checks passing), the
validator returns blocked with the non-standard-port reason, and an
unparsable port is blocked with the invalid-port reason; an explicit port 0
is treated as an absent port by the truthiness test and is not blocked. -/
theorem C8_nonstandard_port_blocking :
    (∀ (env : Env) (url : String) (n : Nat),
      pre_port_checks_ok env url →
      (env.urlparse url).port = PortV.val n →
      n ≠ 0 →
      ALLOWED_FETCH_PORTS.contains n = false →
      validate_fetch_url env url =
        (false, "Blocked non-standard port '" ++ toString n ++ "'.")) ∧
    (∀ (env : Env) (url : String),
      pre_port_checks_ok env url →
      (env.urlparse url).port = PortV.invalid →
      validate_fetch_url env url = (false, "Invalid URL port.")) := by
  constructor
  · intro env url n hpre hport hn0 hc
    obtain ⟨h1, h2, h3, h4, h5⟩ := hpre
    unfold processed_host at h4 h5
    unfold validate_fetch_url
    dsimp only
    simp only [h1, h2, h3, h4, h5, Bool.or_self, Bool.true_eq_false, Bool.false_eq_true,
      if_false, ite_false, ne_eq, not_false_eq_true, if_true, ite_true]
    rw [hport]
    dsimp only
    rw [if_pos ⟨hn0, hc⟩]
  · intro env url hpre hport
    obtain ⟨h1, h2, h3, h4, h5⟩ := hpre
    unfold processed_host at h4 h5
    unfold validate_fetch_url
    dsimp only
    simp only [h1, h2, h3, h4, h5, Bool.or_self, Bool.true_eq_false, Bool.false_eq_true,
      if_false, ite_false, ne_eq, not_false_eq_true, if_true, ite_true]
    rw [hport]

theorem C8_nonstandard_port_blocking_witness :
    pre_port_checks_ok envPort8080 "http://example.edu:8080/" ∧
    validate_fetch_url envPort8080 "http://example.edu:8080/" =
      (false, "Blocked non-standard port '8080'.") ∧
    validate_fetch_url envPortInvalid "http://example.edu:bad/" =
      (false, "Invalid URL port.") := by
  refine ⟨⟨by decide, by decide, by decide, by decide, by decide⟩, ?_, ?_⟩
  · have h := C8_nonstandard_port_blocking.1 envPort8080 "http://example.edu:8080/" 8080
      ⟨by decide, by decide, by decide, by decide, by decide⟩ rfl (by decide) (by decide)
    rw [h]
    decide
  · exact C8_nonstandard_port_blocking.2 envPortInvalid "http://example.edu:bad/"
      ⟨by decide, by decide, by decide, by decide, by decide⟩ rfl

/-! ### Response-size enforcement (C3) -/

theorem read_body_ok_length (body payload : List Nat)
    (h : (read_body body).1 = Except.ok payload) :
    payload.length ≤ MAX_SOURCE_RESPONSE_BYTES := by
  unfold read_body at h
  dsimp only at h
  by_cases hl : (body.take (MAX_SOURCE_RESPONSE_BYTES + 1)).length > MAX_SOURCE_RESPONSE_BYTES
  · rw [if_pos hl] at h
    simp at h
  · rw [if_neg hl] at h
    dsimp only at h
    obtain rfl : body.take (MAX_SOURCE_RESPONSE_BYTES + 1) = payload := by
      simpa using h
    exact Nat.le_of_not_lt hl

/-- C3: a declared Content-Length above the byte cap (2,500,000) is rejected
before the body is read; without a usable declaration at most cap+1 bytes
are read and the read is rejected as soon as more than the cap was obtained;
consequently a successfully returned payload never exceeds the cap. -/
theorem C3_response_size_cap :
    (∀ (pyInt : String → Option Int) (contentLength : Option String) (body : List Nat) (d : Int),
      pyStr contentLength ≠ "" →
      pyInt (pyStr contentLength) = some d →
      (MAX_SOURCE_RESPONSE_BYTES : Int) < d →
      read_response_payload pyInt contentLength body =
        (Except.error ("Response too large (" ++ toString d ++ " bytes). Max is " ++
          toString MAX_SOURCE_RESPONSE_BYTES ++ " bytes."), false)) ∧
    (∀ (pyInt : String → Option Int) (contentLength : Option String) (body payload : List Nat),
      (read_response_payload pyInt contentLength body).1 = Except.ok payload →
      payload.length ≤ MAX_SOURCE_RESPONSE_BYTES) ∧
    (∀ (pyInt : String → Option Int) (contentLength : Option String) (body : List Nat),
      pyStr contentLength = "" →
      MAX_SOURCE_RESPONSE_BYTES < body.length →
      read_response_payload pyInt contentLength body =
        (Except.error ("Response exceeded max size (" ++
          toString MAX_SOURCE_RESPONSE_BYTES ++ " bytes)."), true)) := by
  refine ⟨?_, ?_, ?_⟩
  · intro pyInt cl body d hne hp hd
    unfold read_response_payload
    dsimp only
    rw [if_pos hne, hp]
    dsimp only [Option.getD]
    rw [if_pos hd]
  · intro pyInt cl body payload h
    unfold read_response_payload at h
    dsimp only at h
    by_cases hcl : pyStr cl ≠ ""
    · rw [if_pos hcl] at h
      by_cases hd : ((pyInt (pyStr cl)).getD 0) > (MAX_SOURCE_RESPONSE_BYTES : Int)
      · rw [if_pos hd] at h
        simp at h
      · rw [if_neg hd] at h
        exact read_body_ok_length body payload h
    · rw [if_neg hcl] at h
      exact read_body_ok_length body payload h
  · intro pyInt cl body hcl hlen
    unfold read_response_payload
    dsimp only
    rw [if_neg (by simp [hcl])]
    unfold read_body
    dsimp only
    rw [if_pos (by rw [List.length_take]; omega)]

theorem C3_response_size_cap_witness :
    pyStr (some "9999999") ≠ "" ∧
    (fun s => if s = "9999999" then some (9999999 : Int) else none) (pyStr (some "9999999")) =
      some 9999999 ∧
    (MAX_SOURCE_RESPONSE_BYTES : Int) < 9999999 ∧
    read_response_payload (fun s => if s = "9999999" then some (9999999 : Int) else none)
      (some "9999999") [1, 2, 3] =
      (Except.error ("Response too large (" ++ toString (9999999 : Int) ++ " bytes). Max is " ++
        toString MAX_SOURCE_RESPONSE_BYTES ++ " bytes."), false) ∧
    (read_response_payload (fun _ => none) none [1, 2, 3]).1 = Except.ok [1, 2, 3] ∧
    ([1, 2, 3] : List Nat).length ≤ MAX_SOURCE_RESPONSE_BYTES ∧
    pyStr none = "" ∧
    MAX_SOURCE_RESPONSE_BYTES < (List.replicate (MAX_SOURCE_RESPONSE_BYTES + 1) 0).length ∧
    read_response_payload (fun _ => none) none (List.replicate (MAX_SOURCE_RESPONSE_BYTES + 1) 0) =
      (Except.error ("Response exceeded max size (" ++
        toString MAX_SOURCE_RESPONSE_BYTES ++ " bytes)."), true) := by
  refine ⟨by decide, by decide, by decide, ?_, rfl, by decide, by decide, ?_, ?_⟩
  · exact C3_response_size_cap.1 (fun s => if s = "9999999" then some (9999999 : Int) else none)
      (some "9999999") [1, 2, 3] 9999999 (by decide) (by decide) (by decide)
  · simp [List.length_replicate]
  · exact C3_response_size_cap.2.2 (fun _ => none) none
      (List.replicate (MAX_SOURCE_RESPONSE_BYTES + 1) 0) (by decide)
      (by simp [List.length_replicate])

/-! ### Per-hop validation of the fetcher (C1) -/

theorem request_url_loop_log_validated (env : Env) :
    ∀ (fuel : Nat) (target t : String), t ∈ (request_url_loop env fuel target).2 →
      (validate_fetch_url env t).1 = true := by
  intro fuel
  induction fuel with
  | zero =>
    intro target t h
    simp [request_url_loop] at h
  | succ n ih =>
    intro target t h
    unfold request_url_loop at h
    dsimp only at h
    by_cases hv : (validate_fetch_url env target).1 = true
    · rw [if_pos hv] at h
      rcases hnet : env.net target with ⟨st, ct, cl, body⟩ | ⟨code, headers⟩ | r | m
      · rw [hnet] at h
        dsimp only at h
        rcases hr : (read_response_payload env.pyInt cl body).1 with e | p
        · rw [hr] at h
          dsimp only at h
          rcases List.mem_singleton.mp h with rfl
          exact hv
        · rw [hr] at h
          dsimp only at h
          rcases List.mem_singleton.mp h with rfl
          exact hv
      · rw [hnet] at h
        dsimp only at h
        by_cases hcode : REDIRECT_HTTP_CODES.contains code = true
        · rw [if_pos hcode] at h
          rcases headers with _ | hh
          · dsimp only at h
            rw [if_pos rfl] at h
            rcases List.mem_singleton.mp h with rfl
            exact hv
          · dsimp only at h
            by_cases hloc : pyStr hh.2 = ""
            · rw [if_pos hloc] at h
              rcases List.mem_singleton.mp h with rfl
              exact hv
            · rw [if_neg hloc] at h
              dsimp only at h
              rcases List.mem_cons.mp h with rfl | hmem
              · exact hv
              · exact ih _ t hmem
        · rw [if_neg hcode] at h
          rcases List.mem_singleton.mp h with rfl
          exact hv
      · rw [hnet] at h
        dsimp only at h
        rcases List.mem_singleton.mp h with rfl
        exact hv
      · rw [hnet] at h
        dsimp only at h
        rcases List.mem_singleton.mp h with rfl
        exact hv
    · rw [if_neg hv] at h
      simp at h

theorem request_log_validated (env : Env) (url : String) :
    ∀ t ∈ (request_url env url).2, (validate_fetch_url env t).1 = true := by
  intro t ht
  unfold request_url at ht
  dsimp only at ht
  by_cases htn : normalize_url env url = ""
  · rw [if_pos htn] at ht
    simp at ht
  · rw [if_neg htn] at ht
    exact request_url_loop_log_validated env (MAX_REDIRECTS + 1) (normalize_url env url) t ht

/-- C1: on every call to the fetcher, each URL for which an HTTP request is
actually issued — the initial normalized target and every resolved redirect
target — has just passed the URL security validator; and if validation fails
on the entry target, the fetcher returns the blocked-URL error having issued
no request at all. -/
theorem C1_validate_before_request :
    (∀ (env : Env) (url : String), ∀ t ∈ (request_url env url).2,
      (validate_fetch_url env t).1 = true) ∧
    (∀ (env : Env) (url : String),
      normalize_url env url ≠ "" →
      (validate_fetch_url env (normalize_url env url)).1 = false →
      request_url env url =
        ({ status := none, contentType := "", payload := [],
           error := some ("Blocked URL for security reasons: " ++
             (validate_fetch_url env (normalize_url env url)).2) }, [])) := by
  constructor
  · intro env url
    exact request_log_validated env url
  · intro env url hne hv
    unfold request_url
    dsimp only
    rw [if_neg hne]
    unfold request_url_loop
    dsimp only
    rw [if_neg (by simp [hv])]

/-- An environment performing one successful fetch. -/
def envFetchOk : Env :=
  { envDefault with
    urlparse := fun _ => { scheme := "https", hostname := some "example.edu" },
    getaddrinfo := fun _ => Except.ok [],
    net := fun _ => NetOutcome.success (some 200) (some "text/html") none [104] }

/-- An environment whose URLs have a non-http scheme. -/
def envSchemeFtp : Env :=
  { envDefault with urlparse := fun _ => { scheme := "ftp", hostname := some "example.edu" } }

theorem C1_validate_before_request_witness :
    "https://example.edu" ∈ (request_url envFetchOk "https://example.edu").2 ∧
    (validate_fetch_url envFetchOk "https://example.edu").1 = true ∧
    normalize_url envSchemeFtp "ftp://example.edu" ≠ "" ∧
    (validate_fetch_url envSchemeFtp (normalize_url envSchemeFtp "ftp://example.edu")).1 = false ∧
    request_url envSchemeFtp "ftp://example.edu" =
      ({ status := none, contentType := "", payload := [],
         error := some "Blocked URL for security reasons: Only http/https URLs are allowed." },
       []) := by
  refine ⟨by decide, ?_, by decide, by decide, ?_⟩
  · exact C1_validate_before_request.1 envFetchOk "https://example.edu" "https://example.edu"
      (by decide)
  · have h := C1_validate_before_request.2 envSchemeFtp "ftp://example.edu" (by decide) (by decide)
    rw [h]
    decide

/-! ### Redirect bounding (C4) -/

theorem request_url_loop_all_redirects (env : Env)
    (hval : ∀ t, (validate_fetch_url env t).1 = true)
    (hnet : ∀ t, ∃ code loc ct, env.net t = NetOutcome.httpError code (some (ct, some loc)) ∧
      REDIRECT_HTTP_CODES.contains code = true ∧ pyStr (some loc) ≠ "") :
    ∀ (fuel : Nat) (target : String),
      (request_url_loop env fuel target).1 =
        { status := none, contentType := "", payload := [],
          error := some ("Too many redirects (>" ++ toString MAX_REDIRECTS ++ ").") } ∧
      (request_url_loop env fuel target).2.length = fuel := by
  intro fuel
  induction fuel with
  | zero => intro target; exact ⟨rfl, rfl⟩
  | succ n ih =>
    intro target
    obtain ⟨code, loc, ct, hn, hc, hl⟩ := hnet target
    unfold request_url_loop
    dsimp only
    rw [if_pos (hval target), hn]
    dsimp only
    rw [if_pos hc]
    rw [if_neg (by simpa [pyStr] using hl)]
    dsimp only
    refine ⟨(ih _).1, ?_⟩
    rw [List.length_cons, (ih _).2]

/-- C4: a redirect chain longer than the redirect cap (4) makes the fetcher
terminate with the too-many-redirects error after issuing exactly
`MAX_REDIRECTS + 1` requests and no more; and a redirect response without a
usable Location header terminates the fetch immediately with a descriptive
error after that single request. -/
theorem C4_redirect_bounds :
    (∀ (env : Env) (url : String),
      normalize_url env url ≠ "" →
      (∀ t, (validate_fetch_url env t).1 = true) →
      (∀ t, ∃ code loc ct, env.net t = NetOutcome.httpError code (some (ct, some loc)) ∧
        REDIRECT_HTTP_CODES.contains code = true ∧ pyStr (some loc) ≠ "") →
      (request_url env url).1 =
        { status := none, contentType := "", payload := [],
          error := some ("Too many redirects (>" ++ toString MAX_REDIRECTS ++ ").") } ∧
      (request_url env url).2.length = MAX_REDIRECTS + 1) ∧
    (∀ (env : Env) (url : String) (code : Nat)
      (headers : Option (Option String × Option String)),
      normalize_url env url ≠ "" →
      (validate_fetch_url env (normalize_url env url)).1 = true →
      env.net (normalize_url env url) = NetOutcome.httpError code headers →
      REDIRECT_HTTP_CODES.contains code = true →
      (match headers with | some h => pyStr h.2 | none => "") = "" →
      request_url env url =
        ({ status := some code,
           contentType := (match headers with | some h => pyStr h.1 | none => ""),
           payload := [],
           error := some ("Redirect (HTTP " ++ toString code ++ ") without Location header.") },
         [normalize_url env url])) := by
  constructor
  · intro env url hne hval hnet
    unfold request_url
    dsimp only
    rw [if_neg hne]
    exact request_url_loop_all_redirects env hval hnet (MAX_REDIRECTS + 1) (normalize_url env url)
  · intro env url code headers hne hv hn hc hloc
    unfold request_url
    dsimp only
    rw [if_neg hne]
    unfold request_url_loop
    dsimp only
    rw [if_pos hv, hn]
    dsimp only
    rw [if_pos hc, if_pos hloc]

/-- A network that always answers with a redirect carrying a Location. -/
def envRedirLoop : Env :=
  { envDefault with
    urlparse := fun _ => { scheme := "https", hostname := some "example.edu" },
    getaddrinfo := fun _ => Except.ok [],
    net := fun _ => NetOutcome.httpError 302 (some (none, some "https://example.edu/next")) }

/-- A network answering with a redirect missing its Location header. -/
def envRedirNoLoc : Env :=
  { envDefault with
    urlparse := fun _ => { scheme := "https", hostname := some "example.edu" },
    getaddrinfo := fun _ => Except.ok [],
    net := fun _ => NetOutcome.httpError 301 (some (some "text/html", none)) }

theorem C4_redirect_bounds_witness :
    (request_url envRedirLoop "https://example.edu").1 =
      { status := none, contentType := "", payload := [],
        error := some ("Too many redirects (>" ++ toString MAX_REDIRECTS ++ ").") } ∧
    (request_url envRedirLoop "https://example.edu").2.length = MAX_REDIRECTS + 1 ∧
    request_url envRedirNoLoc "https://example.edu" =
      ({ status := some 301, contentType := "text/html", payload := [],
         error := some "Redirect (HTTP 301) without Location header." },
       ["https://example.edu"]) := by
  have h1 := C4_redirect_bounds.1 envRedirLoop "https://example.edu" (by decide)
    (by intro t; rfl)
    (fun t => ⟨302, "https://example.edu/next", none, rfl, by decide, by decide⟩)
  have h2 := C4_redirect_bounds.2 envRedirNoLoc "https://example.edu" 301
    (some (some "text/html", none)) (by decide) (by decide) rfl (by decide) (by decide)
  refine ⟨h1.1, h1.2, ?_⟩
  rw [h2]
  decide

/-! ### Confidence monotonicity and bounds (C7) -/

theorem rules_weight_nonneg : ∀ r ∈ REQUIREMENT_RULES, (0 : ℚ) ≤ r.weight := by
  intro r hr
  fin_cases hr <;> norm_num

theorem triggered_weight_sum_nonneg (hits : String → Nat) :
    (0 : ℚ) ≤ triggered_weight_sum hits := by
  unfold triggered_weight_sum
  apply List.sum_nonneg
  intro x hx
  simp only [List.mem_map] at hx
  obtain ⟨r, hr, rfl⟩ := hx
  by_cases h : hits r.id > 0
  · rw [if_pos h]
    exact rules_weight_nonneg r hr
  · rw [if_neg h]

theorem triggered_weight_sum_mono (h1 h2 : String → Nat)
    (hsub : ∀ id, 0 < h1 id → 0 < h2 id) :
    triggered_weight_sum h1 ≤ triggered_weight_sum h2 := by
  unfold triggered_weight_sum
  apply List.sum_le_sum
  intro r hr
  by_cases h : h1 r.id > 0
  · rw [if_pos h, if_pos (hsub _ h)]
  · rw [if_neg h]
    by_cases h2p : h2 r.id > 0
    · rw [if_pos h2p]
      exact rules_weight_nonneg r hr
    · rw [if_neg h2p]

theorem any_signal_mono (h1 h2 : String → Nat)
    (hsub : ∀ id, 0 < h1 id → 0 < h2 id) (ha : any_signal h1 = true) :
    any_signal h2 = true := by
  unfold any_signal at ha ⊢
  simp only [List.any_eq_true, decide_eq_true_eq] at ha ⊢
  obtain ⟨r, hr, hpos⟩ := ha
  exact ⟨r, hr, hsub _ hpos⟩

theorem min_cap_nonneg (hits : String → Nat) :
    (0 : ℚ) ≤ min (0.42 : ℚ) (triggered_weight_sum hits) :=
  le_min (by norm_num) (triggered_weight_sum_nonneg hits)

theorem confidence_score_mono (fetchedCount failedCount : Nat) (h1 h2 : String → Nat)
    (hsub : ∀ id, 0 < h1 id → 0 < h2 id) :
    confidence_score fetchedCount failedCount h1 ≤
      confidence_score fetchedCount failedCount h2 := by
  unfold confidence_score
  dsimp only
  refine max_le_max le_rfl (min_le_min le_rfl ?_)
  have hmin := min_le_min (le_refl (0.42 : ℚ)) (triggered_weight_sum_mono h1 h2 hsub)
  by_cases ha1 : any_signal h1 = true
  · have ha2 : any_signal h2 = true := any_signal_mono h1 h2 hsub ha1
    simp only [ha1, ha2, if_true, not_true, if_false, ite_true, ite_false, Bool.true_eq_false,
      not_false_eq_true]
    by_cases hf : failedCount > fetchedCount
    · simp only [hf, if_true, ite_true]
      exact sub_le_sub_right (add_le_add_left hmin _) _
    · simp only [hf, if_false, ite_false]
      exact add_le_add_left hmin _
  · have hmin2 := min_cap_nonneg h2
    by_cases ha2 : any_signal h2 = true
    · simp only [ha1, ha2, if_true, if_false, ite_true, ite_false, Bool.false_eq_true,
        not_false_eq_true, not_true]
      by_cases hf : failedCount > fetchedCount
      · simp only [hf, if_true, ite_true]
        linarith
      · simp only [hf, if_false, ite_false]
        linarith
    · simp [ha1, ha2]

theorem confidence_score_bounds (fetchedCount failedCount : Nat) (hits : String → Nat) :
    (0.08 : ℚ) ≤ confidence_score fetchedCount failedCount hits ∧
      confidence_score fetchedCount failedCount hits ≤ (0.93 : ℚ) := by
  unfold confidence_score
  dsimp only
  exact ⟨le_max_left _ _, max_le (by norm_num) (min_le_left _ _)⟩

theorem round_mono_rat (a b : ℚ) (hab : a ≤ b) : round a ≤ round b := by
  rw [round_eq, round_eq]
  exact Int.floor_le_floor (by linarith)

theorem round2_mono (x y : ℚ) (h : x ≤ y) : round2 x ≤ round2 y := by
  unfold round2
  have hr : round (x * 100) ≤ round (y * 100) := round_mono_rat _ _ (by linarith)
  exact (div_le_div_iff_of_pos_right (by norm_num : (0:ℚ) < 100)).mpr (by exact_mod_cast hr)

theorem round2_bounds (q : ℚ) (hl : (0.08 : ℚ) ≤ q) (hu : q ≤ (0.93 : ℚ)) :
    (0.08 : ℚ) ≤ round2 q ∧ round2 q ≤ (0.93 : ℚ) := by
  have h8 : (8 : ℤ) ≤ round (q * 100) := by
    have : round ((8 : ℤ) : ℚ) ≤ round (q * 100) := round_mono_rat _ _ (by push_cast; linarith)
    simpa using this
  have h93 : round (q * 100) ≤ (93 : ℤ) := by
    have : round (q * 100) ≤ round ((93 : ℤ) : ℚ) := round_mono_rat _ _ (by push_cast; linarith)
    simpa using this
  unfold round2
  constructor
  · calc (0.08 : ℚ) = 8 / 100 := by norm_num
      _ ≤ (round (q * 100) : ℚ) / 100 :=
        (div_le_div_iff_of_pos_right (by norm_num : (0:ℚ) < 100)).mpr (by exact_mod_cast h8)
  · calc (round (q * 100) : ℚ) / 100 ≤ 93 / 100 :=
        (div_le_div_iff_of_pos_right (by norm_num : (0:ℚ) < 100)).mpr (by exact_mod_cast h93)
      _ = (0.93 : ℚ) := by norm_num

/-- C7: holding the fetched and failed counts fixed, the returned confidence
is monotonically non-decreasing when the set of triggered rules grows; and
for every input the returned confidence, rounded to two decimals, lies in
the interval [0.08, 0.93]. -/
theorem C7_confidence_monotone_bounded :
    (∀ (fetchedCount failedCount : Nat) (h1 h2 : String → Nat),
      (∀ id, 0 < h1 id → 0 < h2 id) →
      round2 (confidence_score fetchedCount failedCount h1) ≤
        round2 (confidence_score fetchedCount failedCount h2)) ∧
    (∀ (fetchedCount failedCount : Nat) (hits : String → Nat),
      (0.08 : ℚ) ≤ round2 (confidence_score fetchedCount failedCount hits) ∧
      round2 (confidence_score fetchedCount failedCount hits) ≤ (0.93 : ℚ)) := by
  constructor
  · intro f fl h1 h2 hsub
    exact round2_mono _ _ (confidence_score_mono f fl h1 h2 hsub)
  · intro f fl hits
    exact round2_bounds _ (confidence_score_bounds f fl hits).1
      (confidence_score_bounds f fl hits).2

theorem C7_confidence_monotone_bounded_witness :
    (∀ id, 0 < (fun _ : String => 0) id → 0 < (fun id => if id = "training" then 1 else 0) id) ∧
    round2 (confidence_score 1 0 (fun _ => 0)) ≤
      round2 (confidence_score 1 0 (fun id => if id = "training" then 1 else 0)) ∧
    round2 (confidence_score 1 0 (fun _ => 0)) = (0.41 : ℚ) ∧
    round2 (confidence_score 1 0 (fun id => if id = "training" then 1 else 0)) = (0.57 : ℚ) ∧
    (0.08 : ℚ) ≤ round2 (confidence_score 0 7 (fun _ => 0)) ∧
    round2 (confidence_score 0 7 (fun _ => 0)) ≤ (0.93 : ℚ) := by
  refine ⟨fun id h => absurd h (by simp), ?_, ?_, ?_, ?_, ?_⟩
  · exact C7_confidence_monotone_bounded.1 1 0 _ _ (fun id h => absurd h (by simp))
  · with_unfolding_all rfl
  · with_unfolding_all rfl
  · exact (C7_confidence_monotone_bounded.2 0 7 _).1
  · exact (C7_confidence_monotone_bounded.2 0 7 _).2

/-! ### Stage views of the import pipeline

Each `core_*` definition names one intermediate value of `import_core`'s
let-chain; the `import_core_*` equations (all definitional) connect the
returned aggregate to those stages. -/

def core_candidates (env : Env) (orgName site irb raw : String) : List SourceDoc :=
  if pyStrip raw ≠ "" then
    inline_source_doc orgName raw :: (build_candidate_urls env orgName site irb).1
  else (build_candidate_urls env orgName site irb).1

def core_docs0 (env : Env) (orgName site irb raw : String) : List SourceDoc :=
  (core_candidates env orgName site irb raw).map (fun source =>
    if source.source_type = "inline_text" then source else (fetch_source env source).1)

def core_doc_links (env : Env) (orgName site irb raw : String) : List String :=
  dedup_strings (((core_docs0 env orgName site irb raw).filter
    (fun source => source.status = "fetched")).map
    (fun source => extract_doc_links (source.links.getD []))).flatten

def core_docs (env : Env) (orgName site irb raw : String) : List SourceDoc :=
  core_docs0 env orgName site irb raw ++
    (pdf_followups env (core_doc_links env orgName site irb raw) 0).1

def core_agg (env : Env) (orgName site irb raw : String) : AggState :=
  (core_docs env orgName site irb raw).foldl (agg_step env) agg_init

def core_fetched_count (env : Env) (orgName site irb raw : String) : Nat :=
  ((core_docs env orgName site irb raw).filter (fun source => source.status = "fetched")).length

def core_failed_count (env : Env) (orgName site irb raw : String) : Nat :=
  ((core_docs env orgName site irb raw).filter (fun source => source.status = "failed")).length

def core_netlog (env : Env) (orgName site irb raw : String) : List String :=
  (build_candidate_urls env orgName site irb).2 ++
    ((core_candidates env orgName site irb raw).map (fun source =>
      if source.source_type = "inline_text" then [] else (fetch_source env source).2)).flatten ++
    (pdf_followups env (core_doc_links env orgName site irb raw) 0).2

theorem import_core_candidates (env : Env) (o s i r p : String) (b : BaseProfile) :
    (import_core env o s i r p b).candidates = core_candidates env o s i r := rfl

theorem import_core_docs (env : Env) (o s i r p : String) (b : BaseProfile) :
    (import_core env o s i r p b).docs = core_docs env o s i r := rfl

theorem import_core_netlog (env : Env) (o s i r p : String) (b : BaseProfile) :
    (import_core env o s i r p b).netLog = core_netlog env o s i r := rfl

theorem import_core_fetched_stat (env : Env) (o s i r p : String) (b : BaseProfile) :
    (import_core env o s i r p b).result.stats.fetchedSourceCount =
      core_fetched_count env o s i r := rfl

theorem import_core_failed_stat (env : Env) (o s i r p : String) (b : BaseProfile) :
    (import_core env o s i r p b).result.stats.failedSourceCount =
      core_failed_count env o s i r := rfl

theorem import_core_candidate_stat (env : Env) (o s i r p : String) (b : BaseProfile) :
    (import_core env o s i r p b).result.stats.candidateSourceCount =
      (core_candidates env o s i r).length := rfl

theorem import_core_confidence (env : Env) (o s i r p : String) (b : BaseProfile) :
    (import_core env o s i r p b).result.confidence =
      round2 (confidence_score (core_fetched_count env o s i r) (core_failed_count env o s i r)
        (lookupNat (core_agg env o s i r).hitsAgg)) := rfl

theorem import_core_sources (env : Env) (o s i r p : String) (b : BaseProfile) :
    (import_core env o s i r p b).result.sources =
      (core_docs env o s i r).map (fun source =>
        SourceDoc.as_metadata source (source_hits env source)) := rfl

theorem import_core_warnings (env : Env) (o s i r p : String) (b : BaseProfile) :
    (import_core env o s i r p b).result.warnings =
      (if core_fetched_count env o s i r = 0 then
        ["No source pages were successfully fetched. Draft profile uses fallback assumptions."]
      else []) ++
      (if core_failed_count env o s i r > 0 then
        [toString (core_failed_count env o s i r) ++
          " source requests failed; requirements may be incomplete."]
      else []) ++
      (if (signal_summaries_of (core_agg env o s i r).hitsAgg
          (core_agg env o s i r).highlights).isEmpty then
        ["No strong requirement signals detected from sources; verify manually."]
      else []) ++
      (if core_doc_links env o s i r ≠ [] then
        ["Document links were detected but may not be the latest official form versions."]
      else []) ++
      ["Imported profile is a best-effort draft and must be validated against your institution's official IRB office instructions."] := rfl

/-! ### Freshness of built candidates -/

theorem dedup_docs_aux_mem : ∀ (l : List SourceDoc) (seen : List String) (d : SourceDoc),
    d ∈ dedup_docs_aux l seen → d ∈ l ∧ d.url ≠ "" := by
  intro l
  induction l with
  | nil => intro seen d hd; simp [dedup_docs_aux] at hd
  | cons s rest ih =>
    intro seen d hd
    unfold dedup_docs_aux at hd
    by_cases hc : s.url = "" ∨ seen.contains s.url = true
    · rw [if_pos hc] at hd
      obtain ⟨hmem, hurl⟩ := ih seen d hd
      exact ⟨List.mem_cons_of_mem s hmem, hurl⟩
    · rw [if_neg hc] at hd
      rcases List.mem_cons.mp hd with rfl | hmem
      · exact ⟨List.mem_cons_self _ _, fun h => hc (Or.inl h)⟩
      · obtain ⟨hmem₂, hurl⟩ := ih _ d hmem
        exact ⟨List.mem_cons_of_mem s hmem₂, hurl⟩

theorem dedup_docs_aux_ne_nil : ∀ (l : List SourceDoc) (seen : List String),
    (∃ d ∈ l, d.url ≠ "" ∧ seen.contains d.url = false) → dedup_docs_aux l seen ≠ [] := by
  intro l
  induction l with
  | nil => intro seen h; obtain ⟨d, hd, _⟩ := h; cases hd
  | cons s rest ih =>
    intro seen h
    unfold dedup_docs_aux
    by_cases hc : s.url = "" ∨ seen.contains s.url = true
    · rw [if_pos hc]
      obtain ⟨d, hd, hurl, hseen⟩ := h
      rcases List.mem_cons.mp hd with rfl | hmem
      · rcases hc with hc | hc
        · exact absurd hc hurl
        · rw [hc] at hseen; cases hseen
      · exact ih seen ⟨d, hmem, hurl, hseen⟩
    · rw [if_neg hc]
      exact List.cons_ne_nil _ _

theorem build_sources_all_fresh (env : Env) (orgName site irb : String) :
    ∀ d ∈ (build_candidate_urls env orgName site irb).1,
      d = mkCandidate d.url d.source_type ∧ d.source_type ≠ "inline_text" ∧ d.url ≠ "" := by
  intro d hd
  unfold build_candidate_urls at hd
  dsimp only at hd
  have hd' : d ∈ dedup_docs_aux _ [] := (List.take_sublist _ _).subset hd
  obtain ⟨hmem, hurl⟩ := dedup_docs_aux_mem _ _ _ hd'
  have hchar : ∃ u t, d = mkCandidate u t ∧ t ≠ "inline_text" := by
    simp only [List.mem_append] at hmem
    rcases hmem with ((h | h) | h) | h
    · split at h
      · rcases List.mem_singleton.mp h with rfl
        exact ⟨_, _, rfl, by decide⟩
      · cases h
    · split at h
      · rcases List.mem_cons.mp h with rfl | h
        · exact ⟨_, _, rfl, by decide⟩
        · obtain ⟨path, _, rfl⟩ := List.mem_map.mp h
          exact ⟨_, _, rfl, by decide⟩
      · cases h
    · split at h
      · split at h
        · rcases List.mem_cons.mp h with rfl | h
          · exact ⟨_, _, rfl, by decide⟩
          · obtain ⟨path, _, rfl⟩ := List.mem_map.mp h
            exact ⟨_, _, rfl, by decide⟩
        · cases h
      · cases h
    · obtain ⟨link, _, rfl⟩ := List.mem_map.mp h
      exact ⟨_, _, rfl, by decide⟩
  obtain ⟨u, t, rfl, ht⟩ := hchar
  exact ⟨rfl, ht, hurl⟩

theorem build_ne_nil (env : Env) (orgName site irb : String)
    (hbase : normalize_url env site ≠ "") :
    (build_candidate_urls env orgName site irb).1 ≠ [] := by
  unfold build_candidate_urls
  dsimp only
  intro h
  rcases (List.take_eq_nil_iff.mp h) with h7 | hnil
  · cases h7
  · refine dedup_docs_aux_ne_nil _ [] ?_ hnil
    refine ⟨mkCandidate (normalize_url env site) "web", ?_, hbase, rfl⟩
    rw [if_pos hbase]
    simp

/-! ### The per-source invariant (C6/C9) -/

/-- The only error text a fetched source can carry: the non-fatal PDF
extraction warning of `_extract_pdf_text`. -/
def pdf_warning (e : String) : Prop :=
  e = "Empty PDF payload." ∨ ∃ m, e = "PDF text extraction unavailable (" ++ m ++ ")."

theorem extract_pdf_text_error (env : Env) (payload : List Nat) :
    (extract_pdf_text env payload).2 = none ∨
      ∃ e, (extract_pdf_text env payload).2 = some e ∧ pdf_warning e := by
  unfold extract_pdf_text
  by_cases hp : payload.isEmpty = true
  · rw [if_pos hp]
    exact Or.inr ⟨_, rfl, Or.inl rfl⟩
  · rw [if_neg hp]
    rcases env.pdfPages payload with e | pages
    · exact Or.inr ⟨_, rfl, Or.inr ⟨e, rfl⟩⟩
    · exact Or.inl rfl

theorem fetch_source_body_spec (env : Env) (s : SourceDoc) (payload : List Nat)
    (herr : s.error = none) :
    (fetch_source_body env s payload).status = "fetched" ∧
      ((fetch_source_body env s payload).error = none ∨
        ∃ e, (fetch_source_body env s payload).error = some e ∧ pdf_warning e) := by
  unfold fetch_source_body
  by_cases hpdf : (hasSub (pyLower s.content_type) "application/pdf" ||
      pyEndsWith (pyLower s.url) ".pdf") = true
  · rw [if_pos hpdf]
    dsimp only
    rw [herr]
    rcases hX : (extract_pdf_text env payload).2 with _ | e
    · simp only [truthyOptStr, Bool.not_false, Bool.and_true, Bool.false_eq_true, if_false,
        ite_false, reduceIte]
      exact ⟨trivial, Or.inl trivial⟩
    · by_cases he : e = ""
      · subst he
        simp only [truthyOptStr, Bool.not_false, Bool.and_true, bne_self_eq_false,
          Bool.false_eq_true, if_false, ite_false, reduceIte]
        exact ⟨trivial, Or.inl trivial⟩
      · rw [if_pos (by simp [truthyOptStr, he])]
        refine ⟨rfl, Or.inr ⟨e, rfl, ?_⟩⟩
        rcases extract_pdf_text_error env payload with hnone | ⟨e', he', hw⟩
        · rw [hX] at hnone
          cases hnone
        · rw [hX] at he'
          injection he' with he''
          rwa [he'']
  · rw [if_neg hpdf]
    exact ⟨rfl, Or.inl herr⟩

theorem fetch_source_spec (env : Env) (s : SourceDoc)
    (htext : s.text = "") (hlinks : s.links = none) (herr : s.error = none) :
    ((fetch_source env s).1.status = "failed" ∨ (fetch_source env s).1.status = "fetched") ∧
    ((fetch_source env s).1.status = "failed" →
      (fetch_source env s).1.text = "" ∧ (fetch_source env s).1.links = none ∧
      ∃ e, (fetch_source env s).1.error = some e ∧ e ≠ "") ∧
    ((fetch_source env s).1.status = "fetched" →
      (fetch_source env s).1.error = none ∨
        ∃ e, (fetch_source env s).1.error = some e ∧ pdf_warning e) := by
  unfold fetch_source
  dsimp only
  rcases herr' : (request_url env s.url).1.error with _ | e
  · dsimp only
    by_cases hp : (request_url env s.url).1.payload.isEmpty = true
    · rw [if_pos hp]
      exact ⟨Or.inl rfl, fun _ => ⟨htext, hlinks, "Empty response.", rfl, by decide⟩,
        fun hcontra => by simp at hcontra⟩
    · rw [if_neg hp]
      obtain ⟨hst, herr₂⟩ := fetch_source_body_spec env
        { s with http_status := (request_url env s.url).1.status,
                 content_type := (request_url env s.url).1.contentType }
        ((request_url env s.url).1.payload) herr
      exact ⟨Or.inr hst, fun hf => absurd (hst ▸ hf : ("fetched" : String) = "failed")
        (by decide), fun _ => herr₂⟩
  · dsimp only
    by_cases he : e ≠ ""
    · rw [if_pos he]
      exact ⟨Or.inl rfl, fun _ => ⟨htext, hlinks, e, rfl, he⟩,
        fun hcontra => by simp at hcontra⟩
    · rw [if_neg he]
      by_cases hp : (request_url env s.url).1.payload.isEmpty = true
      · rw [if_pos hp]
        exact ⟨Or.inl rfl, fun _ => ⟨htext, hlinks, "Empty response.", rfl, by decide⟩,
          fun hcontra => by simp at hcontra⟩
      · rw [if_neg hp]
        obtain ⟨hst, herr₂⟩ := fetch_source_body_spec env
          { s with http_status := (request_url env s.url).1.status,
                   content_type := (request_url env s.url).1.contentType }
          ((request_url env s.url).1.payload) herr
        exact ⟨Or.inr hst, fun hf => absurd (hst ▸ hf : ("fetched" : String) = "failed")
          (by decide), fun _ => herr₂⟩

theorem pdf_followups_mem (env : Env) : ∀ (links : List String) (attempts : Nat),
    ∀ d ∈ (pdf_followups env links attempts).1,
      ∃ link, d = (fetch_source env (mkCandidate link "web")).1 := by
  intro links
  induction links with
  | nil => intro attempts d hd; simp [pdf_followups] at hd
  | cons link rest ih =>
    intro attempts d hd
    unfold pdf_followups at hd
    by_cases ha : attempts ≥ MAX_PDF_SOURCES_TO_PARSE
    · rw [if_pos ha] at hd
      cases hd
    · rw [if_neg ha] at hd
      by_cases hpdf : ¬ (pyEndsWith (pyLower link) ".pdf" = true)
      · rw [if_pos hpdf] at hd
        exact ih attempts d hd
      · rw [if_neg hpdf] at hd
        dsimp only at hd
        rcases List.mem_cons.mp hd with rfl | hmem
        · exact ⟨link, rfl⟩
        · exact ih (attempts + 1) d hmem

theorem core_docs_invariant (env : Env) (o s i r : String) :
    ∀ d ∈ core_docs env o s i r,
      (d.status = "failed" ∨ d.status = "fetched") ∧
      (d.status = "failed" →
        d.text = "" ∧ d.links = none ∧ ∃ e, d.error = some e ∧ e ≠ "") ∧
      (d.status = "fetched" →
        d.error = none ∨ ∃ e, d.error = some e ∧ pdf_warning e) := by
  intro d hd
  unfold core_docs at hd
  rcases List.mem_append.mp hd with hd0 | hdp
  · unfold core_docs0 at hd0
    obtain ⟨c, hc, rfl⟩ := List.mem_map.mp hd0
    unfold core_candidates at hc
    by_cases hr : pyStrip r ≠ ""
    · rw [if_pos hr] at hc
      rcases List.mem_cons.mp hc with rfl | hcw
      · have hil : (inline_source_doc o r).source_type = "inline_text" := rfl
        rw [if_pos hil]
        exact ⟨Or.inr rfl, fun hf => by simp [inline_source_doc] at hf, fun _ => Or.inl rfl⟩
      · obtain ⟨heq, htype, _⟩ := build_sources_all_fresh env o s i c hcw
        rw [if_neg htype]
        rw [heq]
        exact fetch_source_spec env _ rfl rfl rfl
    · rw [if_neg hr] at hc
      obtain ⟨heq, htype, _⟩ := build_sources_all_fresh env o s i c hc
      rw [if_neg htype]
      rw [heq]
      exact fetch_source_spec env _ rfl rfl rfl
  · obtain ⟨link, rfl⟩ := pdf_followups_mem env _ 0 d hdp
    exact fetch_source_spec env _ rfl rfl rfl

/-! ### SourceDoc field invariant (C6) -/

/-- A network always answering with a small PDF whose text extraction
library fails. -/
def envPdfFail : Env :=
  { envDefault with
    urlparse := fun _ => { scheme := "https", hostname := some "example.edu" },
    getaddrinfo := fun _ => Except.ok [],
    net := fun _ => NetOutcome.success (some 200) (some "application/pdf") none [1, 2, 3],
    pdfPages := fun _ => Except.error "boom" }

/-- C6 counterexample: a fetched PDF source whose extraction fails keeps
`status = "fetched"` while carrying the non-empty extraction warning in its
`error` field, so a source CAN be fetched with a non-empty error. -/
theorem C6_fetched_with_error_counterexample :
    ((import_irb_profile envPdfFail "Example University" "" "https://example.edu/x.pdf" "" ""
        none).toOption.bind (fun run => run.result.sources.head?)).map
      (fun m => (m.status, m.error)) =
      some ("fetched", "PDF text extraction unavailable (boom).") ∧
    "PDF text extraction unavailable (boom)." ≠ "" := by
  constructor
  · with_unfolding_all rfl
  · decide

/-- C6 (amended): in the pipeline's output every source has status failed or
fetched; a failed source has empty text, no links and a non-empty error; and
a fetched source has no error, except that a fetched PDF source whose text
extraction failed carries the PDF-extraction warning in its error field. -/
theorem C6_source_doc_fields :
    ∀ (env : Env) (orgName site irb raw pid : String) (bp : Option BaseProfile)
      (run : ImportRun),
      import_irb_profile env orgName site irb raw pid bp = Except.ok run →
      ∀ d ∈ run.docs,
        (d.status = "failed" ∨ d.status = "fetched") ∧
        (d.status = "failed" →
          d.text = "" ∧ d.links = none ∧ ∃ e, d.error = some e ∧ e ≠ "") ∧
        (d.status = "fetched" →
          d.error = none ∨ ∃ e, d.error = some e ∧ pdf_warning e) := by
  intro env o s i r p bp run hok d hd
  unfold import_irb_profile at hok
  dsimp only at hok
  by_cases hname : pyStrip o = ""
  · rw [if_pos hname] at hok
    cases hok
  · rw [if_neg hname] at hok
    injection hok with hok'
    subst hok'
    rw [import_core_docs] at hd
    exact core_docs_invariant env (pyStrip o) s i r d hd

theorem C6_source_doc_fields_witness :
    import_irb_profile envPdfFail "Example University" "" "https://example.edu/x.pdf" "" "" none =
      Except.ok (import_core envPdfFail "Example University" "" "https://example.edu/x.pdf" "" "" {}) ∧
    (fetch_source envPdfFail (mkCandidate "https://example.edu/x.pdf" "web")).1 ∈
      (import_core envPdfFail "Example University" "" "https://example.edu/x.pdf" "" "" {}).docs ∧
    (((fetch_source envPdfFail (mkCandidate "https://example.edu/x.pdf" "web")).1.status =
        "failed" ∨
      (fetch_source envPdfFail (mkCandidate "https://example.edu/x.pdf" "web")).1.status =
        "fetched") ∧
     ((fetch_source envPdfFail (mkCandidate "https://example.edu/x.pdf" "web")).1.status =
        "failed" →
       (fetch_source envPdfFail (mkCandidate "https://example.edu/x.pdf" "web")).1.text = "" ∧
       (fetch_source envPdfFail (mkCandidate "https://example.edu/x.pdf" "web")).1.links = none ∧
       ∃ e, (fetch_source envPdfFail (mkCandidate "https://example.edu/x.pdf" "web")).1.error =
         some e ∧ e ≠ "") ∧
     ((fetch_source envPdfFail (mkCandidate "https://example.edu/x.pdf" "web")).1.status =
        "fetched" →
       (fetch_source envPdfFail (mkCandidate "https://example.edu/x.pdf" "web")).1.error = none ∨
       ∃ e, (fetch_source envPdfFail (mkCandidate "https://example.edu/x.pdf" "web")).1.error =
         some e ∧ pdf_warning e)) := by
  refine ⟨by with_unfolding_all rfl, by decide, ?_⟩
  exact C6_source_doc_fields envPdfFail "Example University" "" "https://example.edu/x.pdf" "" ""
    none _ (by with_unfolding_all rfl) _ (by decide)

/-! ### Error handling of the import (C9) -/

/-- A site whose URLs parse but whose network is down. -/
def envAllFail : Env :=
  { envDefault with
    urlparse := fun _ => { scheme := "https", hostname := some "example.edu" },
    getaddrinfo := fun _ => Except.ok [] }

/-- Failure modes of `socket.getaddrinfo`: `socket.gaierror` (the only
exception `_host_resolves_to_blocked_ip` catches) or a `UnicodeError`, as
raised for an invalid IDNA label (e.g. a label longer than 63 characters),
which the importer does not catch. -/
inductive GaiFail
  | gaierror
  | unicode (msg : String)
  deriving DecidableEq

/-- An uncaught Python exception escaping `import_irb_profile`. -/
inductive PyExc
  | valueError (msg : String)
  | unicodeError (msg : String)
  deriving DecidableEq

/-- The exception-aware environment: as `Env`, except that `urlparse` may
raise `ValueError` (CPython raises, e.g., `ValueError("Invalid IPv6 URL")`
for a bracketed netloc missing its closing bracket) and `getaddrinfo` may
fail with either `socket.gaierror` or an uncaught `UnicodeError`.  All other
abstractions are exactly those of `Env`. -/
structure EnvX where
  urlparse : String → Except String PyUrl
  getaddrinfo : String → Except GaiFail (List String)
  urljoin : String → String → String
  parseIP : String → Option PyIp
  pyInt : String → Option Int
  net : String → NetOutcome
  quotePlus : String → String
  unquote : String → String
  hrefFindall : String → List String
  uddg : String → String
  pdfPages : List Nat → Except String (List String)
  charsetOf : String → Option String
  decodeBytes : String → List Nat → Option String
  decodeUtf8 : List Nat → String
  tokenizeHtml : String → Option (List HtmlEvent)
  stripTags : String → String
  findallCount : String → String → Nat
  reSearch : String → String → Bool
  normWs : String → String
  splitSent : String → List String
  now : String

/-- The total environment underlying an `EnvX`: a `urlparse` error is
replaced by an empty parse and a `UnicodeError` from `getaddrinfo` by a
`gaierror`.  On a run of the exception-aware model that raises no exception
neither replacement is ever consulted, so the run coincides with the total
model over this environment (`import_coreX_ok`). -/
def EnvX.erase (env : EnvX) : Env :=
  { urlparse := fun u =>
      match env.urlparse u with
      | Except.ok p => p
      | Except.error _ => { scheme := "" },
    getaddrinfo := fun h =>
      match env.getaddrinfo h with
      | Except.ok l => Except.ok l
      | Except.error _ => Except.error (),
    urljoin := env.urljoin, parseIP := env.parseIP, pyInt := env.pyInt,
    net := env.net, quotePlus := env.quotePlus, unquote := env.unquote,
    hrefFindall := env.hrefFindall, uddg := env.uddg, pdfPages := env.pdfPages,
    charsetOf := env.charsetOf, decodeBytes := env.decodeBytes,
    decodeUtf8 := env.decodeUtf8, tokenizeHtml := env.tokenizeHtml,
    stripTags := env.stripTags, findallCount := env.findallCount,
    reSearch := env.reSearch, normWs := env.normWs, splitSent := env.splitSent,
    now := env.now }

/-- The exception-aware view of a total environment: `urlparse` always
returns and `getaddrinfo` fails only with `gaierror`. -/
def Env.toX (env : Env) : EnvX :=
  { urlparse := fun u => Except.ok (env.urlparse u),
    getaddrinfo := fun h =>
      match env.getaddrinfo h with
      | Except.ok l => Except.ok l
      | Except.error _ => Except.error GaiFail.gaierror,
    urljoin := env.urljoin, parseIP := env.parseIP, pyInt := env.pyInt,
    net := env.net, quotePlus := env.quotePlus, unquote := env.unquote,
    hrefFindall := env.hrefFindall, uddg := env.uddg, pdfPages := env.pdfPages,
    charsetOf := env.charsetOf, decodeBytes := env.decodeBytes,
    decodeUtf8 := env.decodeUtf8, tokenizeHtml := env.tokenizeHtml,
    stripTags := env.stripTags, findallCount := env.findallCount,
    reSearch := env.reSearch, normWs := env.normWs, splitSent := env.splitSent,
    now := env.now }

/-- `_normalize_url` with the `urlparse` `ValueError` propagated (`urlparse`
is reached only when the stripped URL is non-empty). -/
def normalize_urlX (env : EnvX) (url : String) : Except PyExc String :=
  let url := pyStrip url
  if url = "" then Except.ok ""
  else
    match env.urlparse url with
    | Except.error m => Except.error (PyExc.valueError m)
    | Except.ok parsed =>
      Except.ok (if parsed.scheme ≠ "" then url
        else if pyStartsWith url "//" then "https:" ++ url
        else "https://" ++ url)

/-- `_host_resolves_to_blocked_ip` with a `UnicodeError` from `getaddrinfo`
propagated: the source catches only `socket.gaierror` there. -/
def host_resolves_to_blocked_ipX (env : EnvX) (host : String) :
    Except PyExc (Bool × String) :=
  match env.parseIP host with
  | some directIp =>
    Except.ok (if is_blocked_ip directIp then (true, directIp.text) else (false, ""))
  | none =>
    match env.getaddrinfo host with
    | Except.error GaiFail.gaierror => Except.ok (false, "")
    | Except.error (GaiFail.unicode m) => Except.error (PyExc.unicodeError m)
    | Except.ok infos => Except.ok (gai_loop env.erase infos)

/-- The final resolution check of `_validate_fetch_url`, exception-aware. -/
def resolve_checkX (env : EnvX) (host : String) : Except PyExc (Bool × String) :=
  match host_resolves_to_blocked_ipX env host with
  | Except.error e => Except.error e
  | Except.ok rb =>
    Except.ok (if rb.1 then (false, "Resolved to private/local IP '" ++ rb.2 ++ "'.")
      else (true, ""))

/-- `_validate_fetch_url` with the uncaught library exceptions propagated. -/
def validate_fetch_urlX (env : EnvX) (url : String) : Except PyExc (Bool × String) :=
  match env.urlparse url with
  | Except.error m => Except.error (PyExc.valueError m)
  | Except.ok parsed =>
    let scheme := pyLower (pyStrip parsed.scheme)
    if ALLOWED_FETCH_SCHEMES.contains scheme = false then
      Except.ok (false, "Only http/https URLs are allowed.")
    else if truthyOptStr parsed.username || truthyOptStr parsed.password then
      Except.ok (false, "URLs containing embedded credentials are blocked.")
    else
      let host := stripTrailingChar (pyLower (pyStr parsed.hostname)) '.'
      if host = "" then Except.ok (false, "URL host is missing.")
      else if BLOCKED_HOSTNAMES.contains host then
        Except.ok (false, "Blocked host '" ++ host ++ "'.")
      else
        match parsed.port with
        | PortV.invalid => Except.ok (false, "Invalid URL port.")
        | PortV.val n =>
          if n ≠ 0 ∧ ALLOWED_FETCH_PORTS.contains n = false then
            Except.ok (false, "Blocked non-standard port '" ++ toString n ++ "'.")
          else resolve_checkX env host
        | PortV.absent => resolve_checkX env host

/-- The `while redirects <= MAX_REDIRECTS` loop of `_request_url`,
exception-aware: `_validate_fetch_url` runs outside the `try`, so its
exceptions propagate out of `_request_url`. -/
def request_url_loopX (env : EnvX) : Nat → String → Except PyExc (FetchResult × List String)
  | 0, _ =>
    Except.ok ({ status := none, contentType := "", payload := [],
                 error := some ("Too many redirects (>" ++ toString MAX_REDIRECTS ++ ").") }, [])
  | fuel + 1, target =>
    match validate_fetch_urlX env target with
    | Except.error e => Except.error e
    | Except.ok v =>
      if v.1 then
        match env.net target with
        | NetOutcome.success status contentType contentLength body =>
          (match (read_response_payload env.pyInt contentLength body).1 with
           | Except.ok payload =>
             Except.ok ({ status := status, contentType := pyStr contentType,
                          payload := payload, error := none }, [target])
           | Except.error msg =>
             Except.ok ({ status := none, contentType := "", payload := [],
                          error := some msg }, [target]))
        | NetOutcome.httpError code headers =>
          let contentType := match headers with
            | some h => pyStr h.1
            | none => ""
          if REDIRECT_HTTP_CODES.contains code then
            let location := match headers with
              | some h => pyStr h.2
              | none => ""
            if location = "" then
              Except.ok ({ status := some code, contentType := contentType, payload := [],
                           error := some ("Redirect (HTTP " ++ toString code ++ ") without Location header.") },
                [target])
            else
              match normalize_urlX env (env.urljoin target location) with
              | Except.error e => Except.error e
              | Except.ok nextTarget =>
                match request_url_loopX env fuel nextTarget with
                | Except.error e => Except.error e
                | Except.ok r => Except.ok (r.1, target :: r.2)
          else
            Except.ok ({ status := some code, contentType := contentType, payload := [],
                         error := some ("HTTP " ++ toString code) }, [target])
        | NetOutcome.urlError reason =>
          Except.ok ({ status := none, contentType := "", payload := [],
                       error := some ("Network error: " ++ reason) }, [target])
        | NetOutcome.exc msg =>
          Except.ok ({ status := none, contentType := "", payload := [], error := some msg },
            [target])
      else
        Except.ok ({ status := none, contentType := "", payload := [],
                     error := some ("Blocked URL for security reasons: " ++ v.2) }, [])

/-- `_request_url`, exception-aware and instrumented as `request_url`. -/
def request_urlX (env : EnvX) (url : String) : Except PyExc (FetchResult × List String) :=
  match normalize_urlX env url with
  | Except.error e => Except.error e
  | Except.ok target =>
    if target = "" then
      Except.ok ({ status := none, contentType := "", payload := [],
                   error := some "Empty URL." }, [])
    else request_url_loopX env (MAX_REDIRECTS + 1) target

/-- `_fetch_source`, exception-aware; the body handling past the request is
the exception-free `fetch_source_body`. -/
def fetch_sourceX (env : EnvX) (source : SourceDoc) :
    Except PyExc (SourceDoc × List String) :=
  match request_urlX env source.url with
  | Except.error e => Except.error e
  | Except.ok r =>
    let fr := r.1
    let source := { source with http_status := fr.status, content_type := fr.contentType }
    let outDoc :=
      match fr.error with
      | some e =>
        if e ≠ "" then { source with status := "failed", error := some e }
        else if fr.payload.isEmpty then
          { source with status := "failed", error := some "Empty response." }
        else fetch_source_body env.erase source fr.payload
      | none =>
        if fr.payload.isEmpty then
          { source with status := "failed", error := some "Empty response." }
        else fetch_source_body env.erase source fr.payload
    Except.ok (outDoc, r.2)

/-- One iteration of the `_run_search_queries` loop, exception-aware. -/
def search_query_stepX (env : EnvX) (orgName : String)
    (st : List String × List String × Bool) (template : String → String) :
    Except PyExc (List String × List String × Bool) :=
  if st.2.2 then Except.ok st
  else
    let query := template orgName
    let searchUrl := "https://duckduckgo.com/html/?q=" ++ env.quotePlus query
    match request_urlX env searchUrl with
    | Except.error e => Except.error e
    | Except.ok r =>
      let fr := r.1
      let log := st.2.1 ++ r.2
      if fr.payload.isEmpty || (match fr.status with
          | some s => decide (400 ≤ s)
          | none => false) then
        Except.ok (st.1, log, false)
      else
        let htmlText := decode_text env.erase fr.contentType fr.payload
        let results := (extract_search_result_urls env.erase htmlText).foldl
          (fun acc link => if acc.contains link then acc else acc ++ [link]) st.1
        Except.ok (results, log, results.length ≥ 8)

/-- The fold of `search_query_stepX` over the query templates. -/
def search_foldX (env : EnvX) (orgName : String) :
    List (String → String) → (List String × List String × Bool) →
    Except PyExc (List String × List String × Bool)
  | [], st => Except.ok st
  | t :: rest, st =>
    match search_query_stepX env orgName st t with
    | Except.error e => Except.error e
    | Except.ok st2 => search_foldX env orgName rest st2

/-- `_run_search_queries`, exception-aware. -/
def run_search_queriesX (env : EnvX) (orgName : String) :
    Except PyExc (List String × List String) :=
  match search_foldX env orgName SEARCH_QUERIES ([], [], false) with
  | Except.error e => Except.error e
  | Except.ok st => Except.ok (st.1, st.2.1)

/-- `_build_candidate_urls`, exception-aware: `_normalize_url` runs on the
IRB page URL first, then on the organization website. -/
def build_candidate_urlsX (env : EnvX) (orgName organizationWebsite irbPageUrl : String) :
    Except PyExc (List SourceDoc × List String) :=
  match normalize_urlX env irbPageUrl with
  | Except.error e => Except.error e
  | Except.ok irbUrl =>
    match normalize_urlX env organizationWebsite with
    | Except.error e => Except.error e
    | Except.ok base =>
      let sources₁ := if irbUrl ≠ "" then [mkCandidate irbUrl "web"] else []
      let sources₂ := sources₁ ++
        (if base ≠ "" then
          mkCandidate base "web" ::
            LIKELY_IRB_PATHS.map (fun path =>
              mkCandidate (env.urljoin (stripTrailingChar base '/' ++ "/") (stripLeadingChar path '/'))
                "guessed")
        else [])
      let sources₃ := sources₂ ++
        (if base = "" ∧ orgName ≠ "" then
          let guessedHost := removeChar (slugify orgName) '-'
          if guessedHost ≠ "" then
            mkCandidate ("https://" ++ guessedHost ++ ".edu") "guessed" ::
              (LIKELY_IRB_PATHS.take 3).map (fun path =>
                mkCandidate ("https://" ++ guessedHost ++ ".edu" ++ path) "guessed")
          else []
        else [])
      let shouldSearch := irbUrl = "" ∧ base = ""
      match (if shouldSearch ∧ orgName ≠ "" then run_search_queriesX env orgName
        else Except.ok ([], [])) with
      | Except.error e => Except.error e
      | Except.ok searchOut =>
        let sources₄ := sources₃ ++ searchOut.1.map (fun link => mkCandidate link "search")
        Except.ok ((dedup_docs_aux sources₄ []).take MAX_SOURCE_FETCH, searchOut.2)

/-- The fetch loop of `import_irb_profile`, exception-aware: inline sources
are appended as-is, every other candidate goes through `_fetch_source`. -/
def fetch_loopX (env : EnvX) : List SourceDoc → Except PyExc (List SourceDoc × List String)
  | [] => Except.ok ([], [])
  | s :: rest =>
    if s.source_type = "inline_text" then
      match fetch_loopX env rest with
      | Except.error e => Except.error e
      | Except.ok q => Except.ok (s :: q.1, q.2)
    else
      match fetch_sourceX env s with
      | Except.error e => Except.error e
      | Except.ok p =>
        match fetch_loopX env rest with
        | Except.error e => Except.error e
        | Except.ok q => Except.ok (p.1 :: q.1, p.2 ++ q.2)

/-- The follow-up PDF fetch loop, exception-aware. -/
def pdf_followupsX (env : EnvX) : List String → Nat → Except PyExc (List SourceDoc × List String)
  | [], _ => Except.ok ([], [])
  | link :: rest, attempts =>
    if attempts ≥ MAX_PDF_SOURCES_TO_PARSE then Except.ok ([], [])
    else if ¬ (pyEndsWith (pyLower link) ".pdf" = true) then pdf_followupsX env rest attempts
    else
      match fetch_sourceX env (mkCandidate link "web") with
      | Except.error e => Except.error e
      | Except.ok p =>
        match pdf_followupsX env rest (attempts + 1) with
        | Except.error e => Except.error e
        | Except.ok q => Except.ok (p.1 :: q.1, p.2 ++ q.2)

/-- The body of `import_irb_profile` past the organization-name guard,
exception-aware, in the order the statements execute: candidate building,
the fetch loop, the PDF follow-ups, then the exception-free aggregation and
assembly (including the two `_normalize_url` re-runs in the debug
context). -/
def import_coreX (env : EnvX)
    (orgName organizationWebsite irbPageUrl rawPolicyText profileId : String)
    (baseProfile : BaseProfile) : Except PyExc ImportRun :=
  match build_candidate_urlsX env orgName organizationWebsite irbPageUrl with
  | Except.error e => Except.error e
  | Except.ok bc =>
    let candidateSources :=
      if pyStrip rawPolicyText ≠ "" then
        inline_source_doc orgName rawPolicyText :: bc.1
      else bc.1
    match fetch_loopX env candidateSources with
    | Except.error e => Except.error e
    | Except.ok fl =>
      let discovered := ((fl.1.filter (fun source => source.status = "fetched")).map
        (fun source => extract_doc_links (source.links.getD []))).flatten
      let dedupDocLinks := dedup_strings discovered
      match pdf_followupsX env dedupDocLinks 0 with
      | Except.error e => Except.error e
      | Except.ok pf =>
        match normalize_urlX env organizationWebsite with
        | Except.error e => Except.error e
        | Except.ok debugSite =>
          match normalize_urlX env irbPageUrl with
          | Except.error e => Except.error e
          | Except.ok debugIrb =>
            let fetchedDocs := fl.1 ++ pf.1
            let agg := fetchedDocs.foldl (agg_step env.erase) agg_init
            let sourceMetadata := fetchedDocs.map (fun source =>
              SourceDoc.as_metadata source (source_hits env.erase source))
            let signalSummaries := signal_summaries_of agg.hitsAgg agg.highlights
            let profileIdFinal :=
              if profileId = "" then "imported_" ++ slugify orgName ++ "_v1" else profileId
            let importedProfile := build_imported_profile env.erase orgName profileIdFinal
              agg.hitsAgg fetchedDocs dedupDocLinks baseProfile
            let fetchedCount := (fetchedDocs.filter (fun source => source.status = "fetched")).length
            let failedCount := (fetchedDocs.filter (fun source => source.status = "failed")).length
            let confidence := confidence_score fetchedCount failedCount (lookupNat agg.hitsAgg)
            let warnings :=
              (if fetchedCount = 0 then
                ["No source pages were successfully fetched. Draft profile uses fallback assumptions."]
              else []) ++
              (if failedCount > 0 then
                [toString failedCount ++ " source requests failed; requirements may be incomplete."]
              else []) ++
              (if signalSummaries.isEmpty then
                ["No strong requirement signals detected from sources; verify manually."]
              else []) ++
              (if dedupDocLinks ≠ [] then
                ["Document links were detected but may not be the latest official form versions."]
              else []) ++
              ["Imported profile is a best-effort draft and must be validated against your institution's official IRB office instructions."]
            let notes :=
              ["Importer searches public IRB/HRPP pages and extracts requirement signals via keyword heuristics.",
               "Use source links and highlights as verification starting points before relying on the generated profile."]
            Except.ok
              { result :=
                { organizationName := orgName,
                  profileDraft := importedProfile,
                  confidence := round2 confidence,
                  warnings := warnings,
                  notes := notes,
                  sources := sourceMetadata,
                  signals := signalSummaries,
                  documentLinks := dedupDocLinks.take 18,
                  stats :=
                    { candidateSourceCount := candidateSources.length,
                      fetchedSourceCount := fetchedCount,
                      failedSourceCount := failedCount,
                      signalCount := signalSummaries.length },
                  debugRequestContext :=
                    { organizationWebsite := debugSite,
                      irbPageUrl := debugIrb,
                      usedRawPolicyText := pyStrip rawPolicyText != "" },
                  debugSignalHits := agg.hitsAgg },
                candidates := candidateSources,
                docs := fetchedDocs,
                netLog := bc.2 ++ fl.2 ++ pf.2 }

/-- `import_irb_profile`, exception-aware: the organization-name guard
raises first; afterwards any uncaught library exception propagates. -/
def import_irb_profileX (env : EnvX)
    (orgName organizationWebsite irbPageUrl rawPolicyText profileId : String)
    (baseProfile : Option BaseProfile) : Except PyExc ImportRun :=
  let orgName := pyStrip orgName
  if orgName = "" then Except.error (PyExc.valueError "organizationName is required.")
  else import_coreX env orgName organizationWebsite irbPageUrl rawPolicyText
    profileId (baseProfile.getD {})

theorem erase_urljoin (env : EnvX) : (EnvX.erase env).urljoin = env.urljoin := rfl

theorem erase_pyInt (env : EnvX) : (EnvX.erase env).pyInt = env.pyInt := rfl

theorem erase_net (env : EnvX) : (EnvX.erase env).net = env.net := rfl

theorem erase_quotePlus (env : EnvX) : (EnvX.erase env).quotePlus = env.quotePlus := rfl

theorem erase_parseIP (env : EnvX) : (EnvX.erase env).parseIP = env.parseIP := rfl

theorem erase_urlparse_ok (env : EnvX) (u : String) (p : PyUrl)
    (hp : env.urlparse u = Except.ok p) : (EnvX.erase env).urlparse u = p := by
  simp [EnvX.erase, hp]

theorem erase_getaddrinfo_ok (env : EnvX) (h : String) (l : List String)
    (hg : env.getaddrinfo h = Except.ok l) :
    (EnvX.erase env).getaddrinfo h = Except.ok l := by
  simp [EnvX.erase, hg]

theorem erase_getaddrinfo_err (env : EnvX) (h : String) (gf : GaiFail)
    (hg : env.getaddrinfo h = Except.error gf) :
    (EnvX.erase env).getaddrinfo h = Except.error () := by
  simp [EnvX.erase, hg]

/-- A successful exception-aware `_normalize_url` run agrees with the total
model over the erased environment. -/
theorem normalize_urlX_ok (env : EnvX) (u t : String)
    (h : normalize_urlX env u = Except.ok t) : normalize_url env.erase u = t := by
  unfold normalize_urlX at h
  unfold normalize_url
  dsimp only at h ⊢
  by_cases h0 : pyStrip u = ""
  · rw [if_pos h0] at h ⊢
    exact Except.ok.inj h
  · rw [if_neg h0] at h ⊢
    rcases hp : env.urlparse (pyStrip u) with m | p
    · rw [hp] at h
      cases h
    · rw [hp] at h
      dsimp only at h
      rw [erase_urlparse_ok env (pyStrip u) p hp]
      exact Except.ok.inj h

/-- A successful exception-aware `_host_resolves_to_blocked_ip` run agrees
with the total model over the erased environment. -/
theorem host_blockedX_ok (env : EnvX) (host : String) (v : Bool × String)
    (h : host_resolves_to_blocked_ipX env host = Except.ok v) :
    host_resolves_to_blocked_ip env.erase host = v := by
  unfold host_resolves_to_blocked_ipX at h
  unfold host_resolves_to_blocked_ip
  rw [erase_parseIP]
  rcases hd : env.parseIP host with _ | ip
  · rw [hd] at h
    dsimp only at h ⊢
    rcases hg : env.getaddrinfo host with gf | infos
    · rcases gf with _ | m
      · rw [hg] at h
        dsimp only at h
        rw [erase_getaddrinfo_err env host GaiFail.gaierror hg]
        exact Except.ok.inj h
      · rw [hg] at h
        dsimp only at h
        cases h
    · rw [hg] at h
      dsimp only at h
      rw [erase_getaddrinfo_ok env host infos hg]
      exact Except.ok.inj h
  · rw [hd] at h
    dsimp only at h ⊢
    exact Except.ok.inj h

/-- A successful exception-aware resolution check agrees with the total
model over the erased environment. -/
theorem resolve_checkX_ok (env : EnvX) (host : String) (v : Bool × String)
    (h : resolve_checkX env host = Except.ok v) :
    resolve_check env.erase host = v := by
  unfold resolve_checkX at h
  unfold resolve_check
  rcases hb : host_resolves_to_blocked_ipX env host with e | rb
  · rw [hb] at h
    cases h
  · rw [hb] at h
    dsimp only at h ⊢
    rw [host_blockedX_ok env host rb hb]
    exact Except.ok.inj h

/-- A successful exception-aware `_validate_fetch_url` run agrees with the
total model over the erased environment. -/
theorem validate_fetch_urlX_ok (env : EnvX) (url : String) (v : Bool × String)
    (h : validate_fetch_urlX env url = Except.ok v) :
    validate_fetch_url env.erase url = v := by
  unfold validate_fetch_urlX at h
  unfold validate_fetch_url
  rcases hp : env.urlparse url with m | p
  · rw [hp] at h
    cases h
  · rw [hp] at h
    dsimp only at h
    rw [erase_urlparse_ok env url p hp]
    dsimp only
    by_cases h1 : ALLOWED_FETCH_SCHEMES.contains (pyLower (pyStrip p.scheme)) = false
    · rw [if_pos h1] at h ⊢
      exact Except.ok.inj h
    · rw [if_neg h1] at h ⊢
      by_cases h2 : (truthyOptStr p.username || truthyOptStr p.password) = true
      · rw [if_pos h2] at h ⊢
        exact Except.ok.inj h
      · rw [if_neg h2] at h ⊢
        by_cases h3 : stripTrailingChar (pyLower (pyStr p.hostname)) '.' = ""
        · rw [if_pos h3] at h ⊢
          exact Except.ok.inj h
        · rw [if_neg h3] at h ⊢
          by_cases h4 : BLOCKED_HOSTNAMES.contains (stripTrailingChar (pyLower (pyStr p.hostname)) '.') = true
          · rw [if_pos h4] at h ⊢
            exact Except.ok.inj h
          · rw [if_neg h4] at h ⊢
            rcases hport : p.port with _ | n | _
            · rw [hport] at h
              dsimp only at h ⊢
              exact resolve_checkX_ok env _ v h
            · rw [hport] at h
              dsimp only at h ⊢
              by_cases h6 : n ≠ 0 ∧ ALLOWED_FETCH_PORTS.contains n = false
              · rw [if_pos h6] at h ⊢
                exact Except.ok.inj h
              · rw [if_neg h6] at h ⊢
                exact resolve_checkX_ok env _ v h
            · rw [hport] at h
              dsimp only at h ⊢
              exact Except.ok.inj h

/-- A successful exception-aware redirect loop run agrees with the total
model over the erased environment. -/
theorem request_url_loopX_ok (env : EnvX) :
    ∀ (fuel : Nat) (target : String) (r : FetchResult × List String),
    request_url_loopX env fuel target = Except.ok r →
    request_url_loop env.erase fuel target = r := by
  intro fuel
  induction fuel with
  | zero =>
    intro target r h
    unfold request_url_loopX at h
    unfold request_url_loop
    exact Except.ok.inj h
  | succ n ih =>
    intro target r h
    unfold request_url_loopX at h
    unfold request_url_loop
    rcases hv : validate_fetch_urlX env target with e | v
    · rw [hv] at h
      cases h
    · rw [hv] at h
      dsimp only at h
      rw [validate_fetch_urlX_ok env target v hv]
      dsimp only
      by_cases hvv : v.1 = true
      · rw [if_pos hvv] at h ⊢
        rw [erase_net, erase_pyInt, erase_urljoin]
        rcases hnet : env.net target with ⟨st, ct, cl, body⟩ | ⟨code, headers⟩ | reason | msg
        · rw [hnet] at h
          dsimp only at h ⊢
          rcases hrp : (read_response_payload env.pyInt cl body).1 with m | pay
          · rw [hrp] at h
            dsimp only at h ⊢
            exact Except.ok.inj h
          · rw [hrp] at h
            dsimp only at h ⊢
            exact Except.ok.inj h
        · rw [hnet] at h
          dsimp only at h ⊢
          by_cases hredir : REDIRECT_HTTP_CODES.contains code = true
          · rw [if_pos hredir] at h ⊢
            rcases headers with _ | hh
            · dsimp only at h ⊢
              rw [if_pos rfl] at h ⊢
              exact Except.ok.inj h
            · dsimp only at h ⊢
              by_cases hloc : pyStr hh.2 = ""
              · rw [if_pos hloc] at h ⊢
                exact Except.ok.inj h
              · rw [if_neg hloc] at h ⊢
                rcases hnx : normalize_urlX env (env.urljoin target (pyStr hh.2)) with m | nt
                · rw [hnx] at h
                  cases h
                · rw [hnx] at h
                  dsimp only at h
                  rw [normalize_urlX_ok env _ nt hnx]
                  rcases hrec : request_url_loopX env n nt with m | r2
                  · rw [hrec] at h
                    cases h
                  · rw [hrec] at h
                    dsimp only at h
                    rw [ih nt r2 hrec]
                    exact Except.ok.inj h
          · rw [if_neg hredir] at h ⊢
            exact Except.ok.inj h
        · rw [hnet] at h
          dsimp only at h ⊢
          exact Except.ok.inj h
        · rw [hnet] at h
          dsimp only at h ⊢
          exact Except.ok.inj h
      · rw [if_neg hvv] at h ⊢
        exact Except.ok.inj h

/-- A successful exception-aware `_request_url` run agrees with the total
model over the erased environment. -/
theorem request_urlX_ok (env : EnvX) (url : String) (r : FetchResult × List String)
    (h : request_urlX env url = Except.ok r) : request_url env.erase url = r := by
  unfold request_urlX at h
  unfold request_url
  rcases hn : normalize_urlX env url with m | t
  · rw [hn] at h
    cases h
  · rw [hn] at h
    dsimp only at h
    rw [normalize_urlX_ok env url t hn]
    dsimp only
    by_cases h0 : t = ""
    · rw [if_pos h0] at h ⊢
      exact Except.ok.inj h
    · rw [if_neg h0] at h ⊢
      exact request_url_loopX_ok env (MAX_REDIRECTS + 1) t r h

/-- A successful exception-aware `_fetch_source` run agrees with the total
model over the erased environment. -/
theorem fetch_sourceX_ok (env : EnvX) (s : SourceDoc) (p : SourceDoc × List String)
    (h : fetch_sourceX env s = Except.ok p) : fetch_source env.erase s = p := by
  unfold fetch_sourceX at h
  unfold fetch_source
  rcases hr : request_urlX env s.url with m | r
  · rw [hr] at h
    cases h
  · rw [hr] at h
    dsimp only at h
    rw [request_urlX_ok env s.url r hr]
    dsimp only
    exact Except.ok.inj h

/-- A successful exception-aware search-query step agrees with the total
model over the erased environment. -/
theorem search_query_stepX_ok (env : EnvX) (o : String)
    (st : List String × List String × Bool) (t : String → String)
    (v : List String × List String × Bool)
    (h : search_query_stepX env o st t = Except.ok v) :
    search_query_step env.erase o st t = v := by
  unfold search_query_stepX at h
  unfold search_query_step
  by_cases hd : st.2.2 = true
  · rw [if_pos hd] at h ⊢
    exact Except.ok.inj h
  · rw [if_neg hd] at h ⊢
    dsimp only at h ⊢
    rw [erase_quotePlus]
    rcases hr : request_urlX env ("https://duckduckgo.com/html/?q=" ++ env.quotePlus (t o)) with m | r
    · rw [hr] at h
      cases h
    · rw [hr] at h
      dsimp only at h
      rw [request_urlX_ok env _ r hr]
      by_cases hcond : (r.1.payload.isEmpty || (match r.1.status with
          | some s => decide (400 ≤ s)
          | none => false)) = true
      · rw [if_pos hcond] at h ⊢
        exact Except.ok.inj h
      · rw [if_neg hcond] at h ⊢
        exact Except.ok.inj h

/-- A successful exception-aware fold of the search queries agrees with the
total model over the erased environment. -/
theorem search_foldX_ok (env : EnvX) (o : String) :
    ∀ (qs : List (String → String)) (st v : List String × List String × Bool),
    search_foldX env o qs st = Except.ok v →
    qs.foldl (search_query_step env.erase o) st = v := by
  intro qs
  induction qs with
  | nil =>
    intro st v h
    unfold search_foldX at h
    exact Except.ok.inj h
  | cons t rest ih =>
    intro st v h
    unfold search_foldX at h
    rcases hs : search_query_stepX env o st t with m | st2
    · rw [hs] at h
      cases h
    · rw [hs] at h
      dsimp only at h
      rw [List.foldl_cons, search_query_stepX_ok env o st t st2 hs]
      exact ih st2 v h

/-- A successful exception-aware `_run_search_queries` run agrees with the
total model over the erased environment. -/
theorem run_search_queriesX_ok (env : EnvX) (o : String) (v : List String × List String)
    (h : run_search_queriesX env o = Except.ok v) :
    run_search_queries env.erase o = v := by
  unfold run_search_queriesX at h
  unfold run_search_queries
  rcases hf : search_foldX env o SEARCH_QUERIES ([], [], false) with m | st
  · rw [hf] at h
    cases h
  · rw [hf] at h
    dsimp only at h ⊢
    rw [search_foldX_ok env o SEARCH_QUERIES ([], [], false) st hf]
    exact Except.ok.inj h

/-- A successful exception-aware `_build_candidate_urls` run agrees with
the total model over the erased environment. -/
theorem build_candidate_urlsX_ok (env : EnvX) (o w i : String)
    (v : List SourceDoc × List String)
    (h : build_candidate_urlsX env o w i = Except.ok v) :
    build_candidate_urls env.erase o w i = v := by
  unfold build_candidate_urlsX at h
  unfold build_candidate_urls
  rcases hn1 : normalize_urlX env i with m | iu
  · rw [hn1] at h
    cases h
  · rw [hn1] at h
    dsimp only at h
    rcases hn2 : normalize_urlX env w with m | base
    · rw [hn2] at h
      cases h
    · rw [hn2] at h
      dsimp only at h ⊢
      rw [erase_urljoin, normalize_urlX_ok env i iu hn1, normalize_urlX_ok env w base hn2]
      by_cases hs : (iu = "" ∧ base = "") ∧ o ≠ ""
      · rw [if_pos hs] at h
        rcases hsq : run_search_queriesX env o with m | so
        · rw [hsq] at h
          cases h
        · rw [hsq] at h
          dsimp only at h
          rw [if_pos hs, run_search_queriesX_ok env o so hsq]
          exact Except.ok.inj h
      · rw [if_neg hs] at h
        dsimp only at h
        rw [if_neg hs]
        exact Except.ok.inj h

/-- A successful exception-aware fetch loop agrees with the per-candidate
`map` form used by `import_core`. -/
theorem fetch_loopX_ok (env : EnvX) :
    ∀ (l : List SourceDoc) (q : List SourceDoc × List String),
    fetch_loopX env l = Except.ok q →
    q = (l.map (fun s => if s.source_type = "inline_text" then s
          else (fetch_source env.erase s).1),
        (l.map (fun s => if s.source_type = "inline_text" then ([] : List String)
          else (fetch_source env.erase s).2)).flatten) := by
  intro l
  induction l with
  | nil =>
    intro q h
    unfold fetch_loopX at h
    simpa using (Except.ok.inj h).symm
  | cons s rest ih =>
    intro q h
    unfold fetch_loopX at h
    by_cases hin : s.source_type = "inline_text"
    · rw [if_pos hin] at h
      rcases hrec : fetch_loopX env rest with m | q2
      · rw [hrec] at h
        cases h
      · rw [hrec] at h
        dsimp only at h
        have hq2 := ih q2 hrec
        obtain rfl : q = (s :: q2.1, q2.2) := (Except.ok.inj h).symm
        rw [hq2]
        simp only [List.map_cons, List.flatten_cons, if_pos hin, List.nil_append]
    · rw [if_neg hin] at h
      rcases hfs : fetch_sourceX env s with m | p
      · rw [hfs] at h
        cases h
      · rw [hfs] at h
        dsimp only at h
        rcases hrec : fetch_loopX env rest with m | q2
        · rw [hrec] at h
          cases h
        · rw [hrec] at h
          dsimp only at h
          have hq2 := ih q2 hrec
          have hp := fetch_sourceX_ok env s p hfs
          obtain rfl : q = (p.1 :: q2.1, p.2 ++ q2.2) := (Except.ok.inj h).symm
          rw [hq2, ← hp]
          simp only [List.map_cons, List.flatten_cons, if_neg hin]

/-- A successful exception-aware PDF follow-up loop agrees with the total
model over the erased environment. -/
theorem pdf_followupsX_ok (env : EnvX) :
    ∀ (l : List String) (a : Nat) (q : List SourceDoc × List String),
    pdf_followupsX env l a = Except.ok q →
    pdf_followups env.erase l a = q := by
  intro l
  induction l with
  | nil =>
    intro a q h
    unfold pdf_followupsX at h
    unfold pdf_followups
    exact Except.ok.inj h
  | cons link rest ih =>
    intro a q h
    unfold pdf_followupsX at h
    unfold pdf_followups
    by_cases hatt : a ≥ MAX_PDF_SOURCES_TO_PARSE
    · rw [if_pos hatt] at h ⊢
      exact Except.ok.inj h
    · rw [if_neg hatt] at h ⊢
      by_cases hpdf : ¬ (pyEndsWith (pyLower link) ".pdf" = true)
      · rw [if_pos hpdf] at h ⊢
        exact ih a q h
      · rw [if_neg hpdf] at h ⊢
        rcases hfs : fetch_sourceX env (mkCandidate link "web") with m | p
        · rw [hfs] at h
          cases h
        · rw [hfs] at h
          dsimp only at h
          rcases hrec : pdf_followupsX env rest (a + 1) with m | q2
          · rw [hrec] at h
            cases h
          · rw [hrec] at h
            dsimp only at h
            rw [fetch_sourceX_ok env (mkCandidate link "web") p hfs, ih (a + 1) q2 hrec]
            exact Except.ok.inj h

/-- Refinement of the import body: a run of the exception-aware model that
raises no exception produces exactly the total model result over the erased
environment. -/
theorem import_coreX_ok (env : EnvX) (o w i r pid : String) (bp : BaseProfile)
    (run : ImportRun) (h : import_coreX env o w i r pid bp = Except.ok run) :
    import_core env.erase o w i r pid bp = run := by
  unfold import_coreX at h
  rcases hbc : build_candidate_urlsX env o w i with m | bc
  · rw [hbc] at h
    cases h
  · rw [hbc] at h
    dsimp only at h
    rcases hfl : fetch_loopX env
      (if pyStrip r ≠ "" then inline_source_doc o r :: bc.1 else bc.1) with m | fl
    · rw [hfl] at h
      cases h
    · rw [hfl] at h
      dsimp only at h
      rcases hpf : pdf_followupsX env (dedup_strings
        (((fl.1.filter (fun source => source.status = "fetched")).map
          (fun source => extract_doc_links (source.links.getD []))).flatten)) 0 with m | pf
      · rw [hpf] at h
        cases h
      · rw [hpf] at h
        dsimp only at h
        rcases hn1 : normalize_urlX env w with m | dw
        · rw [hn1] at h
          cases h
        · rw [hn1] at h
          dsimp only at h
          rcases hn2 : normalize_urlX env i with m | di
          · rw [hn2] at h
            cases h
          · rw [hn2] at h
            dsimp only at h
            rw [← Except.ok.inj h]
            have hbc2 := build_candidate_urlsX_ok env o w i bc hbc
            have hfl2 := fetch_loopX_ok env _ fl hfl
            have hpf2 := pdf_followupsX_ok env _ 0 pf hpf
            have hfl_a : fl.1 = (if pyStrip r ≠ "" then inline_source_doc o r :: bc.1
                else bc.1).map (fun s => if s.source_type = "inline_text" then s
                  else (fetch_source env.erase s).1) := by
              rw [hfl2]
            have hfl_b : fl.2 = ((if pyStrip r ≠ "" then inline_source_doc o r :: bc.1
                else bc.1).map (fun s => if s.source_type = "inline_text" then ([] : List String)
                  else (fetch_source env.erase s).2)).flatten := by
              rw [hfl2]
            unfold import_core
            dsimp only
            rw [hbc2, normalize_urlX_ok env w dw hn1, normalize_urlX_ok env i di hn2,
              ← hfl_a, ← hfl_b, hpf2]

/-- C9 (amended): `import_irb_profile` raises
`ValueError("organizationName is required.")` whenever the stripped
organization name is empty, before any other work; a non-empty name does
NOT guarantee a result, since an uncaught `ValueError` from `urlparse`
(e.g. on a malformed bracketed netloc) or an uncaught `UnicodeError` from
`getaddrinfo` propagates out of `import_irb_profile`
(`C9_uncaught_exception_counterexample`).  When no library exception is
raised, the import returns the complete result aggregate of the total
model over the erased environment, with each failed source's error
recorded (non-empty) in its per-source metadata and the failed-request
count folded into the warnings. -/
theorem C9_error_only_for_missing_name :
    (∀ (env : EnvX) (orgName site irb raw pid : String) (bp : Option BaseProfile),
      pyStrip orgName = "" →
      import_irb_profileX env orgName site irb raw pid bp =
        Except.error (PyExc.valueError "organizationName is required.")) ∧
    (∀ (env : EnvX) (orgName site irb raw pid : String) (bp : Option BaseProfile)
      (run : ImportRun),
      import_irb_profileX env orgName site irb raw pid bp = Except.ok run →
      pyStrip orgName ≠ "" ∧
      run = import_core env.erase (pyStrip orgName) site irb raw pid (bp.getD {})) ∧
    (∀ (env : EnvX) (orgName site irb raw pid : String) (bp : Option BaseProfile)
      (run : ImportRun),
      import_irb_profileX env orgName site irb raw pid bp = Except.ok run →
      (∀ m ∈ run.result.sources, m.status = "failed" → m.error ≠ "") ∧
      (run.result.stats.failedSourceCount > 0 →
        (toString run.result.stats.failedSourceCount ++
          " source requests failed; requirements may be incomplete.") ∈
          run.result.warnings)) := by
  have hok : ∀ (env : EnvX) (orgName site irb raw pid : String) (bp : Option BaseProfile)
      (run : ImportRun),
      import_irb_profileX env orgName site irb raw pid bp = Except.ok run →
      pyStrip orgName ≠ "" ∧
      run = import_core env.erase (pyStrip orgName) site irb raw pid (bp.getD {}) := by
    intro env o s i r p bp run h
    unfold import_irb_profileX at h
    dsimp only at h
    by_cases hname : pyStrip o = ""
    · rw [if_pos hname] at h
      cases h
    · rw [if_neg hname] at h
      exact ⟨hname, (import_coreX_ok env (pyStrip o) s i r p (bp.getD {}) run h).symm⟩
  refine ⟨?_, hok, ?_⟩
  · intro env o s i r p bp h
    unfold import_irb_profileX
    dsimp only
    rw [if_pos h]
  · intro env o s i r p bp run hrun
    obtain ⟨hname, rfl⟩ := hok env o s i r p bp run hrun
    constructor
    · intro m hm hfail
      rw [import_core_sources] at hm
      obtain ⟨d, hd, rfl⟩ := List.mem_map.mp hm
      obtain ⟨_, hfailed, _⟩ := core_docs_invariant env.erase (pyStrip o) s i r d hd
      obtain ⟨_, _, e, he, hne⟩ := hfailed hfail
      unfold SourceDoc.as_metadata
      dsimp only
      rw [he]
      simpa using hne
    · intro hfc
      rw [import_core_failed_stat] at hfc
      rw [import_core_warnings, import_core_failed_stat]
      refine List.mem_append_left _ (List.mem_append_left _ (List.mem_append_left _
        (List.mem_append_right _ ?_)))
      rw [if_pos hfc]
      exact List.mem_singleton.mpr rfl

/-- An environment in which `urlparse` raises exactly as CPython does on
the malformed bracketed netloc `"http://[::1"` — `ValueError("Invalid IPv6
URL")` — and behaves as `envDefault` otherwise. -/
def envXBadIpv6 : EnvX :=
  { Env.toX envDefault with
    urlparse := fun u =>
      if u = "http://[::1" then Except.error "Invalid IPv6 URL"
      else Except.ok (envDefault.urlparse u) }

/-- An environment in which every URL parses to a host whose first label is
64 characters long, for which `getaddrinfo` raises `UnicodeError` as
CPython does for an overlong IDNA label. -/
def envXBadIdna : EnvX :=
  { Env.toX envDefault with
    urlparse := fun _ => Except.ok
      { scheme := "http",
        hostname := some "aaaaaaaaaaaaaaaaaaaaaaaaaaaaaaaaaaaaaaaaaaaaaaaaaaaaaaaaaaaaaaaa.example.edu" },
    getaddrinfo := fun _ =>
      Except.error (GaiFail.unicode
        "encoding with 'idna' codec failed (UnicodeError: label empty or too long)") }

/-- C9, counterexample to the original claim: a non-empty organization name
does not prevent `import_irb_profile` from raising.  With
`irb_page_url = "http://[::1"`, `_build_candidate_urls` reaches
`_normalize_url`, whose `urlparse` call raises
`ValueError("Invalid IPv6 URL")`, and the exception propagates uncaught;
with an IRB page URL whose host has an overlong label, the validator's
`_host_resolves_to_blocked_ip` hits an uncaught `UnicodeError` from
`getaddrinfo` during the first fetch, which propagates likewise. -/
theorem C9_uncaught_exception_counterexample :
    pyStrip "Example University" ≠ "" ∧
    import_irb_profileX envXBadIpv6 "Example University" "" "http://[::1" "" "" none =
      Except.error (PyExc.valueError "Invalid IPv6 URL") ∧
    PyExc.valueError "Invalid IPv6 URL" ≠
      PyExc.valueError "organizationName is required." ∧
    import_irb_profileX envXBadIdna "Example University" ""
        "http://aaaaaaaaaaaaaaaaaaaaaaaaaaaaaaaaaaaaaaaaaaaaaaaaaaaaaaaaaaaaaaaa.example.edu/"
        "" "" none =
      Except.error (PyExc.unicodeError
        "encoding with 'idna' codec failed (UnicodeError: label empty or too long)") := by
  refine ⟨by decide, by with_unfolding_all rfl, by decide, by with_unfolding_all rfl⟩

theorem C9_error_only_for_missing_name_witness :
    pyStrip "   " = "" ∧
    import_irb_profileX (Env.toX envDefault) "   " "" "" "" "" none =
      Except.error (PyExc.valueError "organizationName is required.") ∧
    pyStrip "Example University" ≠ "" ∧
    import_irb_profileX (Env.toX envAllFail) "Example University" "https://example.edu"
        "" "" "" none =
      Except.ok (import_core (Env.toX envAllFail).erase "Example University"
        "https://example.edu" "" "" "" {}) ∧
    (import_core (Env.toX envAllFail).erase "Example University" "https://example.edu"
      "" "" "" {}).result.stats.failedSourceCount = 7 ∧
    (toString (import_core (Env.toX envAllFail).erase "Example University"
        "https://example.edu" "" "" "" {}).result.stats.failedSourceCount ++
      " source requests failed; requirements may be incomplete.") ∈
      (import_core (Env.toX envAllFail).erase "Example University" "https://example.edu"
        "" "" "" {}).result.warnings := by
  have hok : import_irb_profileX (Env.toX envAllFail) "Example University"
      "https://example.edu" "" "" "" none =
      Except.ok (import_core (Env.toX envAllFail).erase "Example University"
        "https://example.edu" "" "" "" {}) := by
    with_unfolding_all rfl
  refine ⟨by decide,
    C9_error_only_for_missing_name.1 (Env.toX envDefault) "   " "" "" "" "" none (by decide),
    by decide, hok, by decide, ?_⟩
  exact (C9_error_only_for_missing_name.2.2 (Env.toX envAllFail) "Example University"
    "https://example.edu" "" "" "" none _ hok).2 (by decide)

/-! ### The all-fetches-fail scenario (C5) -/

theorem append_ne_empty (a b : String) (ha : a ≠ "") : a ++ b ≠ "" := by
  intro h
  apply ha
  have hd := congrArg String.data h
  rw [String.data_append] at hd
  exact String.ext (List.append_eq_nil.mp hd).1

theorem request_url_error_of_net_error (env : Env)
    (hnet : ∀ u, ∃ r, env.net u = NetOutcome.urlError r) (url : String) :
    ∃ e, (request_url env url).1.error = some e ∧ e ≠ "" := by
  unfold request_url
  dsimp only
  by_cases ht : normalize_url env url = ""
  · rw [if_pos ht]
    exact ⟨"Empty URL.", rfl, by decide⟩
  · rw [if_neg ht]
    unfold request_url_loop
    dsimp only
    by_cases hv : (validate_fetch_url env (normalize_url env url)).1 = true
    · rw [if_pos hv]
      obtain ⟨r, hr⟩ := hnet (normalize_url env url)
      rw [hr]
      exact ⟨"Network error: " ++ r, rfl, append_ne_empty _ _ (by decide)⟩
    · rw [if_neg hv]
      exact ⟨"Blocked URL for security reasons: " ++
        (validate_fetch_url env (normalize_url env url)).2, rfl,
        append_ne_empty _ _ (by decide)⟩

theorem fetch_source_failed_of_net_error (env : Env)
    (hnet : ∀ u, ∃ r, env.net u = NetOutcome.urlError r) (s : SourceDoc) :
    (fetch_source env s).1.status = "failed" := by
  unfold fetch_source
  dsimp only
  obtain ⟨e, he, hne⟩ := request_url_error_of_net_error env hnet s.url
  rw [he]
  dsimp only
  rw [if_pos hne]

theorem lookup_zeros (k : String) :
    lookupNat (REQUIREMENT_RULES.map (fun r => (r.id, 0))) k = 0 := by
  unfold lookupNat
  rcases hf : (REQUIREMENT_RULES.map (fun r => (r.id, 0))).find? (fun p => p.1 = k) with _ | p
  · rw [hf]
    rfl
  · have hmem := List.mem_of_find?_eq_some hf
    obtain ⟨r, _, rfl⟩ := List.mem_map.mp hmem
    rw [hf]
    rfl

theorem any_signal_zeros :
    any_signal (lookupNat (REQUIREMENT_RULES.map (fun r => (r.id, 0)))) = false := by
  unfold any_signal
  apply List.any_eq_false.mpr
  intro r hr
  simp [lookup_zeros]

theorem agg_step_const (env : Env) (st : AggState) (d : SourceDoc)
    (hd : pyTake d.text MAX_TEXT_CHARS = "") : agg_step env st d = st := by
  unfold agg_step source_hits
  rw [hd]
  simp only [ne_eq, not_true_eq_false, if_false, ite_false, reduceIte, lookup_zeros,
    Nat.add_zero, gt_iff_lt, Nat.lt_irrefl, Prod.mk.eta, false_and, List.map_id']

theorem agg_fold_const (env : Env) : ∀ (docs : List SourceDoc) (st : AggState),
    (∀ d ∈ docs, pyTake d.text MAX_TEXT_CHARS = "") →
    docs.foldl (agg_step env) st = st := by
  intro docs
  induction docs with
  | nil => intro st _; rfl
  | cons d rest ih =>
    intro st h
    rw [List.foldl_cons, agg_step_const env st d (h d (List.mem_cons_self _ _))]
    exact ih st (fun x hx => h x (List.mem_cons_of_mem d hx))

theorem confidence_score_no_fetch (flc : Nat) (hf : 0 < flc) (hits : String → Nat)
    (ha : any_signal hits = false) : confidence_score 0 flc hits = (9 : ℚ) / 100 := by
  unfold confidence_score
  dsimp only
  simp only [ha, gt_iff_lt, Nat.lt_irrefl, if_false, ite_false, Bool.false_eq_true,
    not_false_eq_true, if_true, ite_true, hf, reduceIte]
  have h1 : (0.22 : ℚ) - 0.08 - 0.05 = 9 / 100 := by norm_num
  rw [h1, min_eq_right (by norm_num : (9 : ℚ) / 100 ≤ 0.93),
    max_eq_right (by norm_num : (0.08 : ℚ) ≤ 9 / 100)]

theorem round2_of_nine : round2 ((9 : ℚ) / 100) = (9 : ℚ) / 100 := by
  with_unfolding_all rfl

/-- C5 (amended): with an organization name given, the website
`https://example.edu`, no inline policy text, and every fetch failing with a
network error, the import returns `fetchedSourceCount = 0`, confidence
exactly 0.09 (the base 0.22 minus the 0.08 and 0.05 penalties, which stays
above the 0.08 floor), and the no-source-pages warning. -/
theorem C5_all_fetches_fail (env : Env) (orgName raw pid : String) (bp : Option BaseProfile)
    (hname : pyStrip orgName ≠ "")
    (hscheme : (env.urlparse "https://example.edu").scheme ≠ "")
    (hraw : pyStrip raw = "")
    (hnet : ∀ u, ∃ r, env.net u = NetOutcome.urlError r) :
    import_irb_profile env orgName "https://example.edu" "" raw pid bp =
      Except.ok (import_core env (pyStrip orgName) "https://example.edu" "" raw pid
        (bp.getD {})) ∧
    (import_core env (pyStrip orgName) "https://example.edu" "" raw pid
      (bp.getD {})).result.stats.fetchedSourceCount = 0 ∧
    (import_core env (pyStrip orgName) "https://example.edu" "" raw pid
      (bp.getD {})).result.confidence = (9 : ℚ) / 100 ∧
    "No source pages were successfully fetched. Draft profile uses fallback assumptions." ∈
      (import_core env (pyStrip orgName) "https://example.edu" "" raw pid
        (bp.getD {})).result.warnings := by
  have hps : pyStrip "https://example.edu" = "https://example.edu" := by decide
  have hbase : normalize_url env "https://example.edu" = "https://example.edu" := by
    unfold normalize_url
    dsimp only
    rw [hps]
    rw [if_neg (by decide : ¬ ("https://example.edu" : String) = "")]
    rw [if_pos hscheme]
  have hbase' : normalize_url env "https://example.edu" ≠ "" := by
    rw [hbase]
    decide
  have hcand : core_candidates env (pyStrip orgName) "https://example.edu" "" raw =
      (build_candidate_urls env (pyStrip orgName) "https://example.edu" "").1 := by
    unfold core_candidates
    rw [if_neg (by simp [hraw])]
  have hfail0 : ∀ d ∈ core_docs0 env (pyStrip orgName) "https://example.edu" "" raw,
      d.status = "failed" ∧ d.text = "" := by
    intro d hd
    unfold core_docs0 at hd
    rw [hcand] at hd
    obtain ⟨c, hc, rfl⟩ := List.mem_map.mp hd
    obtain ⟨heq, htype, _⟩ :=
      build_sources_all_fresh env (pyStrip orgName) "https://example.edu" "" c hc
    rw [if_neg htype, heq]
    have hf := fetch_source_failed_of_net_error env hnet (mkCandidate c.url c.source_type)
    exact ⟨hf,
      ((fetch_source_spec env (mkCandidate c.url c.source_type) rfl rfl rfl).2.1 hf).1⟩
  have hfetchedNil : (core_docs0 env (pyStrip orgName) "https://example.edu" "" raw).filter
      (fun s => s.status = "fetched") = [] := by
    apply List.filter_eq_nil_iff.mpr
    intro a ha
    simp [(hfail0 a ha).1]
  have hlinksNil : core_doc_links env (pyStrip orgName) "https://example.edu" "" raw = [] := by
    unfold core_doc_links
    rw [hfetchedNil]
    rfl
  have hdocs : core_docs env (pyStrip orgName) "https://example.edu" "" raw =
      core_docs0 env (pyStrip orgName) "https://example.edu" "" raw := by
    unfold core_docs
    rw [hlinksNil]
    exact List.append_nil _
  have hfail : ∀ d ∈ core_docs env (pyStrip orgName) "https://example.edu" "" raw,
      d.status = "failed" ∧ d.text = "" := by
    rw [hdocs]
    exact hfail0
  have hfc : core_fetched_count env (pyStrip orgName) "https://example.edu" "" raw = 0 := by
    unfold core_fetched_count
    rw [hdocs, hfetchedNil]
    rfl
  have hclen : 0 < (core_candidates env (pyStrip orgName) "https://example.edu" "" raw).length := by
    rw [hcand]
    exact List.length_pos.mpr
      (build_ne_nil env (pyStrip orgName) "https://example.edu" "" hbase')
  have hflc : 0 < core_failed_count env (pyStrip orgName) "https://example.edu" "" raw := by
    unfold core_failed_count
    have hall : (core_docs env (pyStrip orgName) "https://example.edu" "" raw).filter
        (fun s => s.status = "failed") =
        core_docs env (pyStrip orgName) "https://example.edu" "" raw :=
      List.filter_eq_self.mpr (fun d hd => by simp [(hfail d hd).1])
    rw [hall, hdocs]
    unfold core_docs0
    rw [List.length_map]
    exact hclen
  have hagg : (core_agg env (pyStrip orgName) "https://example.edu" "" raw).hitsAgg =
      REQUIREMENT_RULES.map (fun r => (r.id, 0)) := by
    unfold core_agg
    rw [agg_fold_const env _ agg_init (fun d hd => by rw [(hfail d hd).2]; rfl)]
    rfl
  refine ⟨?_, hfc, ?_, ?_⟩
  · unfold import_irb_profile
    dsimp only
    rw [if_neg hname]
  · rw [import_core_confidence, hfc, hagg]
    rw [confidence_score_no_fetch _ hflc _ any_signal_zeros]
    exact round2_of_nine
  · rw [import_core_warnings, if_pos hfc]
    exact List.mem_append_left _ (List.mem_append_left _ (List.mem_append_left _
      (List.mem_append_left _ (List.mem_singleton.mpr rfl))))

/-- C5 counterexample: in the stated scenario the code returns confidence
0.09, not the claimed 0.08 floor (0.22 - 0.08 - 0.05 = 0.09 > 0.08). -/
theorem C5_confidence_counterexample :
    (import_irb_profile envAllFail "Example University" "https://example.edu" "" "" ""
        none).toOption.map (fun run => run.result.confidence) = some ((9 : ℚ) / 100) ∧
    (9 : ℚ) / 100 ≠ (0.08 : ℚ) ∧
    (import_irb_profile envAllFail "Example University" "https://example.edu" "" "" ""
        none).toOption.map (fun run => run.result.stats.fetchedSourceCount) = some 0 ∧
    (∀ u, ∃ r, envAllFail.net u = NetOutcome.urlError r) := by
  refine ⟨by with_unfolding_all rfl, by norm_num, by with_unfolding_all rfl, fun u => ⟨"down", rfl⟩⟩

theorem C5_all_fetches_fail_witness :
    pyStrip "Example University" ≠ "" ∧
    (envAllFail.urlparse "https://example.edu").scheme ≠ "" ∧
    pyStrip "" = "" ∧
    import_irb_profile envAllFail "Example University" "https://example.edu" "" "" "" none =
      Except.ok (import_core envAllFail (pyStrip "Example University") "https://example.edu" ""
        "" "" ((none : Option BaseProfile).getD {})) ∧
    (import_core envAllFail (pyStrip "Example University") "https://example.edu" "" "" ""
      ((none : Option BaseProfile).getD {})).result.stats.fetchedSourceCount = 0 ∧
    (import_core envAllFail (pyStrip "Example University") "https://example.edu" "" "" ""
      ((none : Option BaseProfile).getD {})).result.confidence = (9 : ℚ) / 100 ∧
    "No source pages were successfully fetched. Draft profile uses fallback assumptions." ∈
      (import_core envAllFail (pyStrip "Example University") "https://example.edu" "" "" ""
        ((none : Option BaseProfile).getD {})).result.warnings := by
  have h := C5_all_fetches_fail envAllFail "Example University" "" "" none
    (by decide) (by decide) rfl (fun u => ⟨"down", rfl⟩)
  exact ⟨by decide, by decide, rfl, h.1, h.2.1, h.2.2.1, h.2.2.2⟩

/-! ### Inline source isolation (C10) -/

/-- Every URL in a log was approved by the validator. -/
def valid_log (env : Env) (l : List String) : Prop :=
  ∀ t ∈ l, (validate_fetch_url env t).1 = true

theorem valid_log_nil (env : Env) : valid_log env [] :=
  fun t ht => absurd ht (List.not_mem_nil t)

theorem valid_log_append (env : Env) {a b : List String}
    (ha : valid_log env a) (hb : valid_log env b) : valid_log env (a ++ b) := by
  intro t ht
  rcases List.mem_append.mp ht with h | h
  · exact ha t h
  · exact hb t h

theorem fetch_source_log (env : Env) (s : SourceDoc) :
    (fetch_source env s).2 = (request_url env s.url).2 := rfl

theorem search_step_valid (env : Env) (o : String)
    (st : List String × List String × Bool) (tm : String → String)
    (h : valid_log env st.2.1) : valid_log env (search_query_step env o st tm).2.1 := by
  unfold search_query_step
  by_cases hdone : st.2.2 = true
  · rw [if_pos hdone]
    exact h
  · rw [if_neg hdone]
    dsimp only
    split
    · exact valid_log_append env h (request_log_validated env _)
    · exact valid_log_append env h (request_log_validated env _)

theorem search_fold_valid (env : Env) (o : String) :
    ∀ (templates : List (String → String)) (st : List String × List String × Bool),
      valid_log env st.2.1 →
      valid_log env (templates.foldl (search_query_step env o) st).2.1 := by
  intro templates
  induction templates with
  | nil => intro st h; exact h
  | cons tm rest ih =>
    intro st h
    rw [List.foldl_cons]
    exact ih _ (search_step_valid env o st tm h)

theorem build_log_valid (env : Env) (o s i : String) :
    valid_log env (build_candidate_urls env o s i).2 := by
  unfold build_candidate_urls
  dsimp only
  split
  · unfold run_search_queries
    dsimp only
    exact search_fold_valid env o SEARCH_QUERIES ([], [], false) (valid_log_nil env)
  · exact valid_log_nil env

theorem pdf_followups_log_valid (env : Env) :
    ∀ (links : List String) (attempts : Nat),
      valid_log env (pdf_followups env links attempts).2 := by
  intro links
  induction links with
  | nil => intro attempts; exact valid_log_nil env
  | cons link rest ih =>
    intro attempts
    unfold pdf_followups
    by_cases ha : attempts ≥ MAX_PDF_SOURCES_TO_PARSE
    · rw [if_pos ha]
      exact valid_log_nil env
    · rw [if_neg ha]
      by_cases hp : ¬ (pyEndsWith (pyLower link) ".pdf" = true)
      · rw [if_pos hp]
        exact ih attempts
      · rw [if_neg hp]
        dsimp only
        exact valid_log_append env (request_log_validated env (mkCandidate link "web").url)
          (ih (attempts + 1))

theorem core_fetchlog_valid (env : Env) (o s i r : String) :
    valid_log env (((core_candidates env o s i r).map (fun source =>
      if source.source_type = "inline_text" then []
      else (fetch_source env source).2)).flatten) := by
  intro t ht
  rw [List.mem_flatten] at ht
  obtain ⟨l, hl, htl⟩ := ht
  obtain ⟨c, _, rfl⟩ := List.mem_map.mp hl
  by_cases hc : c.source_type = "inline_text"
  · rw [if_pos hc] at htl
    cases htl
  · rw [if_neg hc] at htl
    exact request_log_validated env c.url t htl

theorem core_netlog_valid (env : Env) (o s i r : String) :
    valid_log env (core_netlog env o s i r) := by
  unfold core_netlog
  exact valid_log_append env
    (valid_log_append env (build_log_valid env o s i) (core_fetchlog_valid env o s i r))
    (pdf_followups_log_valid env _ 0)

/-- C10: with non-empty raw policy text the synthetic inline source is
prepended in front of the already-capped web candidate list (so the
candidate count is the web count plus one, the web count itself at most the
fetch cap of 7, and no web candidate is displaced), no HTTP request is ever
issued for `inline://raw_policy_text`, and the inline source heads the
output document list unchanged. -/
theorem C10_inline_source_isolation :
    ∀ (env : Env) (orgName site irb raw pid : String) (bp : Option BaseProfile)
      (run : ImportRun),
      pyStrip raw ≠ "" →
      (env.urlparse "inline://raw_policy_text").scheme = "inline" →
      import_irb_profile env orgName site irb raw pid bp = Except.ok run →
      run.candidates = inline_source_doc (pyStrip orgName) raw ::
        (build_candidate_urls env (pyStrip orgName) site irb).1 ∧
      run.result.stats.candidateSourceCount =
        (build_candidate_urls env (pyStrip orgName) site irb).1.length + 1 ∧
      (build_candidate_urls env (pyStrip orgName) site irb).1.length ≤ MAX_SOURCE_FETCH ∧
      "inline://raw_policy_text" ∉ run.netLog ∧
      run.docs.head? = some (inline_source_doc (pyStrip orgName) raw) := by
  intro env o s i r p bp run hraw hparse hok
  unfold import_irb_profile at hok
  dsimp only at hok
  by_cases hname : pyStrip o = ""
  · rw [if_pos hname] at hok
    cases hok
  · rw [if_neg hname] at hok
    injection hok with hok'
    subst hok'
    have hcand : core_candidates env (pyStrip o) s i r =
        inline_source_doc (pyStrip o) r :: (build_candidate_urls env (pyStrip o) s i).1 := by
      unfold core_candidates
      rw [if_pos hraw]
    refine ⟨?_, ?_, ?_, ?_, ?_⟩
    · rw [import_core_candidates, hcand]
    · rw [import_core_candidate_stat, hcand, List.length_cons]
    · unfold build_candidate_urls
      dsimp only
      exact List.length_take_le _ _
    · rw [import_core_netlog]
      intro hmem
      have hval := core_netlog_valid env (pyStrip o) s i r _ hmem
      have hfalse : (validate_fetch_url env "inline://raw_policy_text").1 = false := by
        unfold validate_fetch_url
        dsimp only
        rw [hparse]
        rw [if_pos (by decide :
          ALLOWED_FETCH_SCHEMES.contains (pyLower (pyStrip "inline")) = false)]
      exact Bool.false_ne_true (hfalse ▸ hval)
    · rw [import_core_docs]
      unfold core_docs core_docs0
      rw [hcand, List.map_cons]
      rfl

/-- An environment with an inline-scheme parse for the synthetic URL and
seven distinct web candidates. -/
def envInline : Env :=
  { envDefault with
    urlparse := fun u =>
      if u = "inline://raw_policy_text" then { scheme := "inline" }
      else { scheme := "https", hostname := some "example.edu" },
    getaddrinfo := fun _ => Except.ok [] }

theorem C10_inline_source_isolation_witness :
    pyStrip "policy text" ≠ "" ∧
    (envInline.urlparse "inline://raw_policy_text").scheme = "inline" ∧
    import_irb_profile envInline "Example University" "https://example.edu" "" "policy text" ""
      none = Except.ok (import_core envInline (pyStrip "Example University")
        "https://example.edu" "" "policy text" "" {}) ∧
    (build_candidate_urls envInline (pyStrip "Example University")
      "https://example.edu" "").1.length = 7 ∧
    (import_core envInline (pyStrip "Example University") "https://example.edu" "" "policy text"
      "" {}).result.stats.candidateSourceCount = 8 ∧
    (import_core envInline (pyStrip "Example University") "https://example.edu" "" "policy text"
      "" {}).candidates = inline_source_doc (pyStrip "Example University") "policy text" ::
        (build_candidate_urls envInline (pyStrip "Example University")
          "https://example.edu" "").1 ∧
    "inline://raw_policy_text" ∉ (import_core envInline (pyStrip "Example University")
      "https://example.edu" "" "policy text" "" {}).netLog ∧
    (import_core envInline (pyStrip "Example University") "https://example.edu" "" "policy text"
      "" {}).docs.head? = some (inline_source_doc (pyStrip "Example University") "policy text") := by
  have h := C10_inline_source_isolation envInline "Example University" "https://example.edu" ""
    "policy text" "" none
    (import_core envInline (pyStrip "Example University") "https://example.edu" "" "policy text"
      "" {})
    (by decide) rfl (by with_unfolding_all rfl)
  exact ⟨by decide, rfl, by with_unfolding_all rfl, by decide, by decide,
    h.1, h.2.2.2.1, h.2.2.2.2⟩

/-- The `if signal_summaries:` test of the source and the `any_signal` test
used by `confidence_score` agree: the summary list is non-empty exactly when
some rule has a positive aggregate count. -/
theorem signal_summaries_of_ne_nil_iff (hitsAgg : List (String × Nat))
    (hl : List (String × List String)) :
    signal_summaries_of hitsAgg hl ≠ [] ↔ any_signal (lookupNat hitsAgg) = true := by
  unfold signal_summaries_of any_signal
  rw [Ne, List.filterMap_eq_nil_iff, List.any_eq_true]
  constructor
  · intro h
    by_contra hno
    push_neg at hno
    apply h
    intro r hr
    have hz : ¬ lookupNat hitsAgg r.id > 0 := by
      intro hpos
      exact hno r hr (by simpa using hpos)
    rw [if_pos (by omega : lookupNat hitsAgg r.id ≤ 0)]
  · rintro ⟨r, hr, hpos⟩ hall
    have hz := hall r hr
    rw [if_neg (by simp at hpos; omega : ¬ lookupNat hitsAgg r.id ≤ 0)] at hz
    cases hz
